import Mathlib

/-!
# Stateless message validation of the BTC-staking module

A shallow embedding of `x/btcstaking/types/msg.go`: the four `ValidateBasic`
methods of `MsgCreateBTCValidator`, `MsgCreateBTCDelegation`,
`MsgAddCovenantSigs` and `MsgBTCUndelegate`.

Conventions of the embedding

* a Go pointer field is an `Option`: `none` is the nil pointer;
* a Go slice is a `Slice`: `none` is the nil slice, `some []` the empty
  non-nil slice (`x == nil` only holds of the former, `len x == 0` of both);
* a Go `error` result is a `Result`: `success` is the nil error,
  `failure line e` a non-nil error `e` returned at source line `line`, and
  `nilDereference` is the run-time fault of using a pointer field that is
  nil;
* functions of other packages (address codec, description length bound,
  proof-of-possession and staking-tx self-checks, transaction decoding,
  simple-transfer classification) are the fields of `Collaborators`; every
  statement quantifies over them;
* error values are compared by content (kind and rendered text), which is
  all a caller can observe.
-/

namespace Babylon

/-! ## Basic types -/

/-- One octet. -/
abbrev Byte := Fin 256

/-- Go `[]byte` contents. -/
abbrev Bytes := List Byte

/-- Go slice: `none` is the nil slice. -/
abbrev Slice (α : Type) := Option (List α)

/-- Go `len` on a slice: a nil slice has length zero. -/
def Slice.len {α : Type} : Slice α → Nat
  | none => 0
  | some l => l.length

/-- The elements a Go `range` loop visits: none for a nil slice. -/
def Slice.elems {α : Type} : Slice α → List α
  | none => []
  | some l => l

/-- Go `uint32` values. -/
abbrev uint32 := Fin 4294967296

/-- Go conversion `uint64(x)`. -/
def uint64 (n : Nat) : Nat := n % 2 ^ 64

/-- Go `math.MaxUint16`. -/
def MaxUint16 : Nat := 65535

/-- Modelled from the spec: `chainhash.MaxHashStringSize` is a constant of a
package outside `src/`; the spec gives the canonical hex hash length as 64
(twice the 32-byte hash size). -/
def MaxHashStringSize : Nat := 64

/-- Go `len` on a string: the number of bytes of the text. -/
def strlen (s : String) : Nat := s.utf8ByteSize

/-! ## Errors -/

/-- Modelled from the spec: the registered errors of the module that
`msg.go` refers to; they are declared outside `src/`. -/
inductive Sentinel where
  | InvalidStakingTx
  | InvalidUnbondingTx
  | EmptyValidatorList
  | DuplicatedValidator
  deriving DecidableEq, Repr

/-- Error values: `errorf msg` is `fmt.Errorf` with its rendered text,
`registered s` a registered module error, `wrapped parent msg` the result of
`parent.Wrapf` with its rendered text. Collaborators may return any value
of this type. -/
inductive Error where
  | errorf (msg : String)
  | registered (s : Sentinel)
  | wrapped (parent : Error) (msg : String)
  deriving DecidableEq, Repr

/-- Registered error `ErrInvalidStakingTx`. -/
def ErrInvalidStakingTx : Error := .registered .InvalidStakingTx

/-- Registered error `ErrInvalidUnbondingTx`. -/
def ErrInvalidUnbondingTx : Error := .registered .InvalidUnbondingTx

/-- Registered error `ErrEmptyValidatorList`. -/
def ErrEmptyValidatorList : Error := .registered .EmptyValidatorList

/-- Registered error `ErrDuplicatedValidator`. -/
def ErrDuplicatedValidator : Error := .registered .DuplicatedValidator

/-- Method `Wrapf` with the format already rendered to `msg`. -/
def Error.Wrapf (e : Error) (msg : String) : Error := .wrapped e msg

/-- The registered error at the root of an error value, if any
(the kind of a wrapped error is the kind of its parent). -/
def Error.kind : Error → Option Sentinel
  | .errorf _ => none
  | .registered s => some s
  | .wrapped p _ => p.kind

/-- Rendering of the verb `%d` for a natural number. -/
def fmtD (n : Nat) : String := toString n

/-- Outcome of a `ValidateBasic` call. In `failure line err` the value the
Go method returns is `err`; `line` records which `return` statement of
`msg.go` produced it (its source line), so that statements can tell which
check failed even when two checks return equal errors. -/
inductive Result where
  | success
  | failure (line : Nat) (err : Error)
  | nilDereference
  deriving DecidableEq, Repr

/-- The Go return value: `none` is the nil error. -/
def Result.err : Result → Option Error
  | .failure _ e => some e
  | _ => none

/-- The source line of the `return` statement that reported an error. -/
def Result.line : Result → Option Nat
  | .failure l _ => some l
  | _ => none

/-! ## Message payloads -/

/-- Modelled from the spec: validator description (a type of another
package); only its presence is inspected here, its length bound is a
collaborator. -/
structure Description where
  Moniker : String
  Details : String
  deriving DecidableEq, Repr

/-- Modelled from the spec: proof of possession; its structure is checked
by a collaborator only. -/
structure ProofOfPossession where
  BabylonSig : Bytes
  BtcSig : Bytes
  deriving DecidableEq, Repr

/-- Modelled from the spec: staking transaction info; its structure is
checked by a collaborator only. -/
structure TransactionInfo where
  Transaction : Bytes
  Proof : Bytes
  deriving DecidableEq, Repr

/-- Modelled from the spec: a decoded Bitcoin transaction, reduced to what
the simple-transfer shape speaks about. -/
structure MsgTx where
  TxIn : List Bytes
  TxOut : List Bytes
  deriving DecidableEq, Repr

/-- BIP-340 public key, a byte string. -/
abbrev BIP340PubKey := Bytes

/-- BIP-340 signature, a byte string. -/
abbrev BIP340Signature := Bytes

/-- Slashing transaction, a byte string. -/
abbrev BTCSlashingTx := Bytes

/-- Account address bytes. -/
abbrev AccAddress := Bytes

/-- Modelled from the spec: the fields of `MsgCreateBTCValidator` (declared
in generated code outside `src/`) that `ValidateBasic` reads. -/
structure MsgCreateBTCValidator where
  Signer : String
  Description : Option Description
  Commission : Option Int
  BabylonPk : Option Bytes
  BtcPk : Option BIP340PubKey
  Pop : Option ProofOfPossession
  deriving DecidableEq, Repr

/-- Modelled from the spec: the fields of `MsgCreateBTCDelegation` (declared
in generated code outside `src/`) that `ValidateBasic` reads. -/
structure MsgCreateBTCDelegation where
  Signer : String
  BabylonPk : Option Bytes
  Pop : Option ProofOfPossession
  BtcPk : Option BIP340PubKey
  ValBtcPkList : Slice BIP340PubKey
  StakingTime : uint32
  StakingTx : Option TransactionInfo
  SlashingTx : Option BTCSlashingTx
  DelegatorSlashingSig : Option BIP340Signature
  UnbondingTime : uint32
  UnbondingTx : Slice Byte
  UnbondingSlashingTx : Option BTCSlashingTx
  DelegatorUnbondingSlashingSig : Option BIP340Signature
  deriving DecidableEq, Repr

/-- Modelled from the spec: the fields of `MsgAddCovenantSigs` (declared in
generated code outside `src/`) that `ValidateBasic` reads. -/
structure MsgAddCovenantSigs where
  Pk : Option BIP340PubKey
  StakingTxHash : String
  SlashingTxSigs : Slice Bytes
  UnbondingTxSig : Option BIP340Signature
  SlashingUnbondingTxSigs : Slice Bytes
  deriving DecidableEq, Repr

/-- Modelled from the spec: the fields of `MsgBTCUndelegate` (declared in
generated code outside `src/`) that `ValidateBasic` reads. -/
structure MsgBTCUndelegate where
  StakingTxHash : String
  UnbondingTxSig : Option BIP340Signature
  deriving DecidableEq, Repr

/-! ## Collaborators -/

/-- The functions of other packages that `msg.go` calls. A result
`Except.error e` or `some e` is a non-nil error `e`. -/
structure Collaborators where
  /-- Function `sdk.AccAddressFromBech32`. -/
  AccAddressFromBech32 : String → Except Error AccAddress
  /-- Method `Description.EnsureLength`. -/
  EnsureLength : Description → Except Error Description
  /-- Method `ProofOfPossession.ValidateBasic`. -/
  PopValidateBasic : ProofOfPossession → Option Error
  /-- Method `TransactionInfo.ValidateBasic`. -/
  StakingTxValidateBasic : TransactionInfo → Option Error
  /-- Function `bbn.NewBTCTxFromBytes`. -/
  NewBTCTxFromBytes : Bytes → Except Error MsgTx
  /-- Function `btcstaking.IsSimpleTransfer`. -/
  IsSimpleTransfer : MsgTx → Option Error

/-- Modelled from the spec: `ExistsDup` is a helper of this module declared
outside `src/`; the spec asks that the validator-key list contain no
duplicate keys, so it answers whether some key of the list occurs again
later in the list. -/
def ExistsDupList : List BIP340PubKey → Bool
  | [] => false
  | k :: ks => decide (k ∈ ks) || ExistsDupList ks

/-- Modelled from the spec: `ExistsDup` on a slice visits its elements. -/
def ExistsDup (s : Slice BIP340PubKey) : Bool := ExistsDupList s.elems

/-! ## The validators -/

/-- Method `(*MsgCreateBTCValidator).ValidateBasic`, lines 22-49. -/
def MsgCreateBTCValidator.ValidateBasic (env : Collaborators)
    (m : MsgCreateBTCValidator) : Result :=
  if m.Commission.isNone then .failure 24 (.errorf "empty commission") else
  if m.Description.isNone then .failure 27 (.errorf "empty description") else
  match m.Description with
  | none => .nilDereference
  | some d =>
  match env.EnsureLength d with
  | .error err => .failure 30 err
  | .ok _ =>
  if m.BabylonPk.isNone then .failure 33 (.errorf "empty Babylon public key") else
  if m.BtcPk.isNone then .failure 36 (.errorf "empty BTC public key") else
  if m.Pop.isNone then .failure 39 (.errorf "empty proof of possession") else
  match env.AccAddressFromBech32 m.Signer with
  | .error err => .failure 42 err
  | .ok _ =>
  match m.Pop with
  | none => .nilDereference
  | some pop =>
  match env.PopValidateBasic pop with
  | some err => .failure 45 err
  | none => .success

/-- Method `(*MsgCreateBTCDelegation).ValidateBasic`, lines 51-119. -/
def MsgCreateBTCDelegation.ValidateBasic (env : Collaborators)
    (m : MsgCreateBTCDelegation) : Result :=
  if m.BabylonPk.isNone then .failure 53 (.errorf "empty Babylon public key") else
  if m.Pop.isNone then .failure 56 (.errorf "empty proof of possession") else
  if m.BtcPk.isNone then .failure 59 (.errorf "empty delegator BTC public key") else
  if m.StakingTx.isNone then .failure 62 (.errorf "empty staking tx info") else
  if m.SlashingTx.isNone then .failure 65 (.errorf "empty slashing tx") else
  if m.DelegatorSlashingSig.isNone then
    .failure 68 (.errorf "empty delegator signature") else
  match env.AccAddressFromBech32 m.Signer with
  | .error err => .failure 71 err
  | .ok _ =>
  -- Check staking time is at most uint16
  if m.StakingTime.val > MaxUint16 then
    .failure 76 (ErrInvalidStakingTx.Wrapf
      ("invalid lock time: " ++ fmtD m.StakingTime.val ++ ", max: " ++ fmtD MaxUint16)) else
  -- Ensure list of validator BTC PKs is not empty
  if m.ValBtcPkList.len = 0 then .failure 80 ErrEmptyValidatorList else
  -- Ensure list of validator BTC PKs is not duplicated
  if ExistsDup m.ValBtcPkList then .failure 84 ErrDuplicatedValidator else
  -- staking tx should be correctly formatted
  match m.StakingTx with
  | none => .nilDereference
  | some stakingTx =>
  match env.StakingTxValidateBasic stakingTx with
  | some err => .failure 89 err
  | none =>
  match m.Pop with
  | none => .nilDereference
  | some pop =>
  match env.PopValidateBasic pop with
  | some err => .failure 92 err
  | none =>
  -- verifications about on-demand unbonding
  if m.UnbondingTx.isNone then .failure 97 (.errorf "empty unbonding tx") else
  if m.UnbondingSlashingTx.isNone then .failure 100 (.errorf "empty slashing tx") else
  if m.DelegatorUnbondingSlashingSig.isNone then
    .failure 103 (.errorf "empty delegator signature") else
  match env.NewBTCTxFromBytes m.UnbondingTx.elems with
  | .error err => .failure 107 err
  | .ok unbondingTxMsg =>
  match env.IsSimpleTransfer unbondingTxMsg with
  | some err => .failure 110 err
  | none =>
  -- Check unbonding time is lower than max uint16
  if uint64 m.UnbondingTime.val > MaxUint16 then
    .failure 115 (ErrInvalidUnbondingTx.Wrapf
      ("unbonding time " ++ fmtD m.UnbondingTime.val ++ " must be lower than "
        ++ fmtD MaxUint16)) else
  .success

/-- Method `(*MsgAddCovenantSigs).ValidateBasic`, lines 121-141. -/
def MsgAddCovenantSigs.ValidateBasic (m : MsgAddCovenantSigs) : Result :=
  if m.Pk.isNone then .failure 123 (.errorf "empty BTC covenant public key") else
  if m.SlashingTxSigs.isNone then
    .failure 126 (.errorf "empty covenant signatures on slashing tx") else
  if strlen m.StakingTxHash ≠ MaxHashStringSize then
    .failure 129 (.errorf ("staking tx hash is not " ++ fmtD MaxHashStringSize)) else
  -- verifications about on-demand unbonding
  if m.UnbondingTxSig.isNone then .failure 134 (.errorf "empty covenant signature") else
  if m.SlashingUnbondingTxSigs.isNone then
    .failure 137 (.errorf "empty covenant signature") else
  .success

/-- Method `(*MsgBTCUndelegate).ValidateBasic`, lines 143-153. -/
def MsgBTCUndelegate.ValidateBasic (m : MsgBTCUndelegate) : Result :=
  if strlen m.StakingTxHash ≠ MaxHashStringSize then
    .failure 145 (.errorf ("staking tx hash is not " ++ fmtD MaxHashStringSize)) else
  if m.UnbondingTxSig.isNone then
    .failure 149 (.errorf "empty signature from the delegator") else
  .success

/-! ## Sample inputs -/

/-- A collaborator set that accepts everything. -/
def acceptAll : Collaborators where
  AccAddressFromBech32 := fun _ => .ok []
  EnsureLength := fun d => .ok d
  PopValidateBasic := fun _ => none
  StakingTxValidateBasic := fun _ => none
  NewBTCTxFromBytes := fun b => .ok ⟨[b], [b]⟩
  IsSimpleTransfer := fun _ => none

/-- A collaborator set that rejects everything, each collaborator with an
error of its own. -/
def rejectAll : Collaborators where
  AccAddressFromBech32 := fun _ => .error (.errorf "decoding bech32 failed")
  EnsureLength := fun _ => .error (.errorf "invalid moniker length")
  PopValidateBasic := fun _ => some (.errorf "empty Babylon signature")
  StakingTxValidateBasic := fun _ => some (.errorf "transaction key cannot be nil")
  NewBTCTxFromBytes := fun _ => .error (.errorf "unexpected EOF")
  IsSimpleTransfer := fun _ => some (.errorf "tx must have exactly 1 input")

/-- A delegation request that passes every check under `acceptAll`. -/
def goodDelegation : MsgCreateBTCDelegation where
  Signer := "bbn1signer"
  BabylonPk := some [2, 7]
  Pop := some ⟨[1], [2]⟩
  BtcPk := some [3]
  ValBtcPkList := some [[10], [11]]
  StakingTime := 1000
  StakingTx := some ⟨[4], [5]⟩
  SlashingTx := some [6]
  DelegatorSlashingSig := some [7]
  UnbondingTime := 100
  UnbondingTx := some [8]
  UnbondingSlashingTx := some [9]
  DelegatorUnbondingSlashingSig := some [12]

/-- A validator registration that passes every check under `acceptAll`. -/
def goodValidator : MsgCreateBTCValidator where
  Signer := "bbn1signer"
  Description := some ⟨"moniker", "details"⟩
  Commission := some 5
  BabylonPk := some [2, 7]
  BtcPk := some [3]
  Pop := some ⟨[1], [2]⟩

/-- A text of 64 bytes. -/
def hash64 : String := "0123456789abcdef0123456789abcdef0123456789abcdef0123456789abcdef"

/-- A covenant signature set that passes every check. -/
def goodCovenantSigs : MsgAddCovenantSigs where
  Pk := some [3]
  StakingTxHash := hash64
  SlashingTxSigs := some [[1]]
  UnbondingTxSig := some [2]
  SlashingUnbondingTxSigs := some [[4]]

/-- An undelegation request that passes every check. -/
def goodUndelegate : MsgBTCUndelegate where
  StakingTxHash := hash64
  UnbondingTxSig := some [2]

/-! ## Vocabulary of the statements -/

/-- The required reference fields of a delegation request, in the order in
which `ValidateBasic` tests their presence. -/
inductive DelegationField where
  | BabylonPk
  | Pop
  | BtcPk
  | StakingTx
  | SlashingTx
  | DelegatorSlashingSig
  | UnbondingTx
  | UnbondingSlashingTx
  | DelegatorUnbondingSlashingSig
  deriving DecidableEq, Repr

/-- Whether a required field of a delegation request is absent (nil). -/
def MsgCreateBTCDelegation.absent (m : MsgCreateBTCDelegation) : DelegationField → Bool
  | .BabylonPk => m.BabylonPk.isNone
  | .Pop => m.Pop.isNone
  | .BtcPk => m.BtcPk.isNone
  | .StakingTx => m.StakingTx.isNone
  | .SlashingTx => m.SlashingTx.isNone
  | .DelegatorSlashingSig => m.DelegatorSlashingSig.isNone
  | .UnbondingTx => m.UnbondingTx.isNone
  | .UnbondingSlashingTx => m.UnbondingSlashingTx.isNone
  | .DelegatorUnbondingSlashingSig => m.DelegatorUnbondingSlashingSig.isNone

/-- The source line of the `return` that reports a delegation field absent. -/
def DelegationField.line : DelegationField → Nat
  | .BabylonPk => 53
  | .Pop => 56
  | .BtcPk => 59
  | .StakingTx => 62
  | .SlashingTx => 65
  | .DelegatorSlashingSig => 68
  | .UnbondingTx => 97
  | .UnbondingSlashingTx => 100
  | .DelegatorUnbondingSlashingSig => 103

/-- The error the source returns at that line. -/
def DelegationField.missingFieldError : DelegationField → Error
  | .BabylonPk => .errorf "empty Babylon public key"
  | .Pop => .errorf "empty proof of possession"
  | .BtcPk => .errorf "empty delegator BTC public key"
  | .StakingTx => .errorf "empty staking tx info"
  | .SlashingTx => .errorf "empty slashing tx"
  | .DelegatorSlashingSig => .errorf "empty delegator signature"
  | .UnbondingTx => .errorf "empty unbonding tx"
  | .UnbondingSlashingTx => .errorf "empty slashing tx"
  | .DelegatorUnbondingSlashingSig => .errorf "empty delegator signature"

/-- The six fields of step 1 of delegation validation, in their fixed order. -/
def delegationStep1 : List DelegationField :=
  [.BabylonPk, .Pop, .BtcPk, .StakingTx, .SlashingTx, .DelegatorSlashingSig]

/-- The number a list of decimal digit characters denotes, continuing from
`acc`; it reads back what `fmtD` renders. -/
def readDecimal (acc : Nat) : List Char → Nat
  | [] => acc
  | c :: cs => readDecimal (acc * 10 + (c.toNat - 48)) cs

/-- The error of the staking-time bound check for the value `t`. -/
def stakingTimeError (t : Nat) : Error :=
  ErrInvalidStakingTx.Wrapf ("invalid lock time: " ++ fmtD t ++ ", max: " ++ fmtD 65535)

/-- The error of the unbonding-time bound check for the value `t`. -/
def unbondingTimeError (t : Nat) : Error :=
  ErrInvalidUnbondingTx.Wrapf
    ("unbonding time " ++ fmtD t ++ " must be lower than " ++ fmtD 65535)

/-- Outcome of one check of an ordered list of checks: `none` when it
passes, otherwise the line and the error it reports. -/
abbrev CheckOutcome := Option (Nat × Error)

/-- The result of running checks in order: the report of the first check that
fails, success when none fails. -/
def firstFailure : List CheckOutcome → Result
  | [] => .success
  | some (line, err) :: _ => .failure line err
  | none :: rest => firstFailure rest

/-- A local check: it fails at `line` with `err` when `failed` holds. -/
def checkThat (failed : Bool) (line : Nat) (err : Error) : CheckOutcome :=
  if failed then some (line, err) else none

/-- A delegated check: it fails at `line` with the error of the collaborator,
if the collaborator returned one. -/
def checkBy (line : Nat) (r : Option Error) : CheckOutcome :=
  r.map fun e => (line, e)

/-- The error of a collaborator that returns a value or an error. -/
def errorOf {α : Type} : Except Error α → Option Error
  | .error e => some e
  | .ok _ => none

/-- The value of a collaborator that returns a value or an error. -/
def valueOf {α : Type} : Except Error α → Option α
  | .error _ => none
  | .ok a => some a

/-- The eight checks of validator registration in the order of the spec:
Commission present, Description present, description length bound, BabylonPk
present, BtcPk present, Pop present, Signer parses, Pop structural validation.
A check on the contents of a field concerns a present field only. -/
def validatorChecks (env : Collaborators) (m : MsgCreateBTCValidator) : List CheckOutcome :=
  [ checkThat m.Commission.isNone 24 (.errorf "empty commission"),
    checkThat m.Description.isNone 27 (.errorf "empty description"),
    checkBy 30 (m.Description.bind fun d => errorOf (env.EnsureLength d)),
    checkThat m.BabylonPk.isNone 33 (.errorf "empty Babylon public key"),
    checkThat m.BtcPk.isNone 36 (.errorf "empty BTC public key"),
    checkThat m.Pop.isNone 39 (.errorf "empty proof of possession"),
    checkBy 42 (errorOf (env.AccAddressFromBech32 m.Signer)),
    checkBy 45 (m.Pop.bind env.PopValidateBasic) ]

/-- The five checks of a covenant signature set in the order of the spec: Pk
present, SlashingTxSigs present, length of StakingTxHash equals 64,
UnbondingTxSig present, SlashingUnbondingTxSigs present. -/
def covenantChecks (m : MsgAddCovenantSigs) : List CheckOutcome :=
  [ checkThat m.Pk.isNone 123 (.errorf "empty BTC covenant public key"),
    checkThat m.SlashingTxSigs.isNone 126 (.errorf "empty covenant signatures on slashing tx"),
    checkThat (strlen m.StakingTxHash != 64) 129 (.errorf "staking tx hash is not 64"),
    checkThat m.UnbondingTxSig.isNone 134 (.errorf "empty covenant signature"),
    checkThat m.SlashingUnbondingTxSigs.isNone 137 (.errorf "empty covenant signature") ]

/-- The required reference fields of a validator registration, in the order
in which `ValidateBasic` tests their presence. -/
inductive ValidatorField where
  | Commission
  | Description
  | BabylonPk
  | BtcPk
  | Pop
  deriving DecidableEq, Repr

/-- Whether a required field of a validator registration is absent (nil). -/
def MsgCreateBTCValidator.absent (m : MsgCreateBTCValidator) : ValidatorField → Bool
  | .Commission => m.Commission.isNone
  | .Description => m.Description.isNone
  | .BabylonPk => m.BabylonPk.isNone
  | .BtcPk => m.BtcPk.isNone
  | .Pop => m.Pop.isNone

/-- The source line of the `return` that reports a validator field absent. -/
def ValidatorField.line : ValidatorField → Nat
  | .Commission => 24
  | .Description => 27
  | .BabylonPk => 33
  | .BtcPk => 36
  | .Pop => 39

/-- The error the source returns at that line. -/
def ValidatorField.missingFieldError : ValidatorField → Error
  | .Commission => .errorf "empty commission"
  | .Description => .errorf "empty description"
  | .BabylonPk => .errorf "empty Babylon public key"
  | .BtcPk => .errorf "empty BTC public key"
  | .Pop => .errorf "empty proof of possession"

/-- The required reference fields of a covenant signature set, in the order
in which `ValidateBasic` tests their presence. -/
inductive CovenantField where
  | Pk
  | SlashingTxSigs
  | UnbondingTxSig
  | SlashingUnbondingTxSigs
  deriving DecidableEq, Repr

/-- Whether a required field of a covenant signature set is absent (nil). -/
def MsgAddCovenantSigs.absent (m : MsgAddCovenantSigs) : CovenantField → Bool
  | .Pk => m.Pk.isNone
  | .SlashingTxSigs => m.SlashingTxSigs.isNone
  | .UnbondingTxSig => m.UnbondingTxSig.isNone
  | .SlashingUnbondingTxSigs => m.SlashingUnbondingTxSigs.isNone

/-- The source line of the `return` that reports a covenant field absent. -/
def CovenantField.line : CovenantField → Nat
  | .Pk => 123
  | .SlashingTxSigs => 126
  | .UnbondingTxSig => 134
  | .SlashingUnbondingTxSigs => 137

/-- The error the source returns at that line. -/
def CovenantField.missingFieldError : CovenantField → Error
  | .Pk => .errorf "empty BTC covenant public key"
  | .SlashingTxSigs => .errorf "empty covenant signatures on slashing tx"
  | .UnbondingTxSig => .errorf "empty covenant signature"
  | .SlashingUnbondingTxSigs => .errorf "empty covenant signature"

/-- The checks of a delegation request in the order of the spec (steps 1-11,
source lines 52-116), each with the line and error it reports when it fails. A
check on the contents of a field concerns a present field only, and the
simple-transfer check concerns a decoded transaction only. -/
def delegationChecks (env : Collaborators) (m : MsgCreateBTCDelegation) : List CheckOutcome :=
  [ checkThat m.BabylonPk.isNone 53 (.errorf "empty Babylon public key"),
    checkThat m.Pop.isNone 56 (.errorf "empty proof of possession"),
    checkThat m.BtcPk.isNone 59 (.errorf "empty delegator BTC public key"),
    checkThat m.StakingTx.isNone 62 (.errorf "empty staking tx info"),
    checkThat m.SlashingTx.isNone 65 (.errorf "empty slashing tx"),
    checkThat m.DelegatorSlashingSig.isNone 68 (.errorf "empty delegator signature"),
    checkBy 71 (errorOf (env.AccAddressFromBech32 m.Signer)),
    checkThat (decide (65535 < m.StakingTime.val)) 76 (stakingTimeError m.StakingTime.val),
    checkThat (m.ValBtcPkList.len == 0) 80 ErrEmptyValidatorList,
    checkThat (ExistsDup m.ValBtcPkList) 84 ErrDuplicatedValidator,
    checkBy 89 (m.StakingTx.bind env.StakingTxValidateBasic),
    checkBy 92 (m.Pop.bind env.PopValidateBasic),
    checkThat m.UnbondingTx.isNone 97 (.errorf "empty unbonding tx"),
    checkThat m.UnbondingSlashingTx.isNone 100 (.errorf "empty slashing tx"),
    checkThat m.DelegatorUnbondingSlashingSig.isNone 103 (.errorf "empty delegator signature"),
    checkBy 107 (errorOf (env.NewBTCTxFromBytes m.UnbondingTx.elems)),
    checkBy 110 ((valueOf (env.NewBTCTxFromBytes m.UnbondingTx.elems)).bind
      env.IsSimpleTransfer),
    checkThat (decide (65535 < m.UnbondingTime.val)) 115
      (unbondingTimeError m.UnbondingTime.val) ]

/-- The pairs of delegation fields left out of the distinctness statement. -/
def delegationSharedText : List (DelegationField × DelegationField) :=
  [(.SlashingTx, .UnbondingSlashingTx), (.UnbondingSlashingTx, .SlashingTx),
   (.DelegatorSlashingSig, .DelegatorUnbondingSlashingSig),
   (.DelegatorUnbondingSlashingSig, .DelegatorSlashingSig)]

/-- The pairs of covenant fields left out of the distinctness statement. -/
def covenantSharedText : List (CovenantField × CovenantField) :=
  [(.UnbondingTxSig, .SlashingUnbondingTxSigs), (.SlashingUnbondingTxSigs, .UnbondingTxSig)]

/-- Collaborators that accept everything, except that the simple-transfer
classifier rejects every transaction. -/
def rejectSimpleTransfer : Collaborators :=
  { acceptAll with IsSimpleTransfer := fun _ => some (.errorf "tx must have exactly 1 input") }

/-- Delegation request whose first absent field is SlashingTx. -/
def delegationNoSlashingTx : MsgCreateBTCDelegation :=
  { goodDelegation with SlashingTx := none }

/-- Delegation request whose first absent field is UnbondingSlashingTx. -/
def delegationNoUnbondingSlashingTx : MsgCreateBTCDelegation :=
  { goodDelegation with UnbondingSlashingTx := none }

/-- Delegation request whose first absent field is DelegatorSlashingSig. -/
def delegationNoSlashingSig : MsgCreateBTCDelegation :=
  { goodDelegation with DelegatorSlashingSig := none }

/-- Delegation request whose first absent field is
DelegatorUnbondingSlashingSig. -/
def delegationNoUnbondingSlashingSig : MsgCreateBTCDelegation :=
  { goodDelegation with DelegatorUnbondingSlashingSig := none }

/-- Covenant signature set whose first absent field is UnbondingTxSig. -/
def covenantNoUnbondingSig : MsgAddCovenantSigs :=
  { goodCovenantSigs with UnbondingTxSig := none }

/-- Covenant signature set whose first absent field is
SlashingUnbondingTxSigs. -/
def covenantNoSlashingUnbondingSigs : MsgAddCovenantSigs :=
  { goodCovenantSigs with SlashingUnbondingTxSigs := none }

/-- Covenant signature set with a hash of 10 bytes, all other fields present. -/
def covenantHash10 : MsgAddCovenantSigs :=
  { goodCovenantSigs with StakingTxHash := "0123456789" }

/-- Covenant signature set with a hash of 11 bytes, all other fields present. -/
def covenantHash11 : MsgAddCovenantSigs :=
  { goodCovenantSigs with StakingTxHash := "0123456789a" }

/-- A delegation request without proof of possession and with a staking time
of 70000. -/
def delegationNoPop : MsgCreateBTCDelegation :=
  { goodDelegation with Pop := none, StakingTime := 70000 }

/-- A covenant signature set with a hash of length 10 and no UnbondingTxSig;
Pk and SlashingTxSigs are present. -/
def covenantShortHash : MsgAddCovenantSigs :=
  { goodCovenantSigs with StakingTxHash := "0123456789", UnbondingTxSig := none }

/-- A text of 63 bytes. -/
def hash63 : String := "0123456789abcdef0123456789abcdef0123456789abcdef0123456789abcde"

/-- The purely local checks of a delegation request: presence of the nine
reference fields, the two time bounds, and the two validator-list checks. -/
inductive DelegationLocalCheck where
  | field (F : DelegationField)
  | stakingTime
  | validatorListEmpty
  | validatorListDuplicated
  | unbondingTime
  deriving DecidableEq, Repr

/-- The source line of the `return` of a local check. -/
def DelegationLocalCheck.line : DelegationLocalCheck → Nat
  | .field F => F.line
  | .stakingTime => 76
  | .validatorListEmpty => 80
  | .validatorListDuplicated => 84
  | .unbondingTime => 115

/-- Whether a message violates a local check; this does not depend on any
collaborator. -/
def MsgCreateBTCDelegation.violates (m : MsgCreateBTCDelegation) :
    DelegationLocalCheck → Bool
  | .field F => m.absent F
  | .stakingTime => decide (65535 < m.StakingTime.val)
  | .validatorListEmpty => m.ValBtcPkList.len == 0
  | .validatorListDuplicated => ExistsDup m.ValBtcPkList
  | .unbondingTime => decide (65535 < m.UnbondingTime.val)

/-- The error a local check reports on the message `m`. -/
def DelegationLocalCheck.error (c : DelegationLocalCheck) (m : MsgCreateBTCDelegation) :
    Error :=
  match c with
  | .field F => F.missingFieldError
  | .stakingTime => stakingTimeError m.StakingTime.val
  | .validatorListEmpty => ErrEmptyValidatorList
  | .validatorListDuplicated => ErrDuplicatedValidator
  | .unbondingTime => unbondingTimeError m.UnbondingTime.val

/-- The source lines at which a delegation request is rejected with the error
of a collaborator: address parsing, StakingTx self-check, Pop self-check,
unbonding-tx decoding, simple-transfer classification. -/
def delegationCollaboratorLines : List Nat := [71, 89, 92, 107, 110]

/-- A delegation request with a staking time of 70000, every other field as
in `goodDelegation`. -/
def delegationLongStaking : MsgCreateBTCDelegation :=
  { goodDelegation with StakingTime := 70000 }

/-- A delegation request without UnbondingTx, every other field as in
`goodDelegation`. -/
def delegationNoUnbondingTx : MsgCreateBTCDelegation :=
  { goodDelegation with UnbondingTx := none }

/-- Collaborators that accept everything, except that the StakingTx
self-check rejects. -/
def rejectStakingTx : Collaborators :=
  { acceptAll with
    StakingTxValidateBasic := fun _ => some (.errorf "transaction key cannot be nil") }

/-- A covenant signature set whose two signature lists are non-nil and hold
zero signatures; every other field is as in `goodCovenantSigs`. -/
def covenantEmptySigs : MsgAddCovenantSigs :=
  { goodCovenantSigs with SlashingTxSigs := some [], SlashingUnbondingTxSigs := some [] }

/-- A text of 64 bytes, none of them a hexadecimal digit. -/
def hashZ64 : String := "zzzzzzzzzzzzzzzzzzzzzzzzzzzzzzzzzzzzzzzzzzzzzzzzzzzzzzzzzzzzzzzz"

/-- A text of 32 characters whose UTF-8 encoding has 64 bytes. -/
def hashAccented32 : String := "éééééééééééééééééééééééééééééééé"

/-- Whether a character is a hexadecimal digit (0-9, a-f, A-F). -/
def isHexDigit (c : Char) : Bool :=
  (48 ≤ c.toNat && c.toNat ≤ 57) || (97 ≤ c.toNat && c.toNat ≤ 102) ||
    (65 ≤ c.toNat && c.toNat ≤ 70)

/-- Whether a text is the hexadecimal encoding of a 32-byte hash: 64
characters, all of them hexadecimal digits. -/
def isHexHash (s : String) : Bool :=
  s.data.length == 64 && s.data.all isHexDigit

/-- A covenant signature set that agrees with `goodCovenantSigs` on which
fields are present and on the length of the hash, with other bytes in every
field. -/
def covenantOtherBytes : MsgAddCovenantSigs where
  Pk := some [200, 201]
  StakingTxHash := hashZ64
  SlashingTxSigs := some []
  UnbondingTxSig := some []
  SlashingUnbondingTxSigs := some [[9], [9, 9]]

/-- A covenant signature set whose SlashingTxSigs is nil; every other field
is as in `goodCovenantSigs`. -/
def covenantNilSlashingSigs : MsgAddCovenantSigs :=
  { goodCovenantSigs with SlashingTxSigs := none }

/-! ## Auxiliary facts -/

theorem uint64_of_uint32 (x : uint32) : uint64 x.val = x.val := by
  unfold uint64
  exact Nat.mod_eq_of_lt (by have := x.isLt; omega)

theorem readDecimal_cons (a : Nat) (c : Char) (cs : List Char) :
    readDecimal a (c :: cs) = readDecimal (a * 10 + (c.toNat - 48)) cs := rfl

theorem digitChar_value (k : Nat) (h : k < 10) : (Nat.digitChar k).toNat - 48 = k := by
  interval_cases k <;> rfl

theorem readDecimal_toDigitsCore (fuel n : Nat) (ds : List Char) (h : n < fuel) :
    readDecimal 0 (Nat.toDigitsCore 10 fuel n ds) = readDecimal n ds := by
  induction fuel generalizing n ds with
  | zero => omega
  | succ fuel ih =>
    unfold Nat.toDigitsCore
    simp only
    split
    · have hlt : n < 10 := by
        rcases Nat.lt_or_ge n 10 with h1 | h1
        · exact h1
        · have := Nat.div_pos h1 (by norm_num : 0 < 10); omega
      rw [readDecimal_cons, digitChar_value (n % 10) (Nat.mod_lt _ (by norm_num)),
        Nat.mod_eq_of_lt hlt, Nat.zero_mul, Nat.zero_add]
    · rename_i h0
      have hpos : 0 < n := by
        rcases Nat.eq_zero_or_pos n with h1 | h1
        · simp [h1] at h0
        · exact h1
      have hlt : n / 10 < fuel := by
        have := Nat.div_lt_self hpos (by norm_num : 1 < 10); omega
      rw [ih (n / 10) _ hlt, readDecimal_cons,
        digitChar_value (n % 10) (Nat.mod_lt _ (by norm_num)), Nat.div_add_mod' n 10]

theorem readDecimal_fmtD (n : Nat) : readDecimal 0 (fmtD n).data = n := by
  show readDecimal 0 (Nat.toDigits 10 n).asString.data = n
  exact readDecimal_toDigitsCore (n + 1) n [] (by omega)

theorem fmtD_injective {a b : Nat} (h : fmtD a = fmtD b) : a = b := by
  have := congrArg (fun s => readDecimal 0 s.data) h
  simpa [readDecimal_fmtD] using this

theorem append_fmtD_injective (pre post : String) {a b : Nat}
    (h : pre ++ fmtD a ++ post = pre ++ fmtD b ++ post) : a = b := by
  apply fmtD_injective
  have h2 := congrArg String.data h
  simp only [String.data_append] at h2
  exact String.ext (List.append_cancel_left (List.append_cancel_right h2))

theorem stakingTimeError_injective {a b : Nat}
    (h : stakingTimeError a = stakingTimeError b) : a = b := by
  simp only [stakingTimeError, Error.Wrapf, Error.wrapped.injEq, true_and] at h
  have h2 : "invalid lock time: " ++ fmtD a ++ (", max: " ++ fmtD 65535)
      = "invalid lock time: " ++ fmtD b ++ (", max: " ++ fmtD 65535) := by
    simpa only [String.append_assoc] using h
  exact append_fmtD_injective _ _ h2

theorem hashLengthText : "staking tx hash is not " ++ fmtD 64 = "staking tx hash is not 64" := by
  decide

/-! ## Delegation requests: presence checks and time bounds -/

/-- C1: if one of the six step-1 fields of a delegation request is absent,
`ValidateBasic` returns the missing-field error of the earliest absent one in
the order BabylonPk, Pop, BtcPk, StakingTx, SlashingTx, DelegatorSlashingSig,
for every collaborator and every value of the other fields; with Pop absent,
BabylonPk present and StakingTime above 65535 the result is the error "empty
proof of possession" of line 56, and not the staking-time error of line 76. -/
theorem delegation_earliest_absent_field (env : Collaborators) (m : MsgCreateBTCDelegation)
    (h : m.BabylonPk = none ∨ m.Pop = none ∨ m.BtcPk = none ∨ m.StakingTx = none ∨
      m.SlashingTx = none ∨ m.DelegatorSlashingSig = none) :
    (∃ F, delegationStep1.find? m.absent = some F ∧
      m.ValidateBasic env = .failure F.line F.missingFieldError) ∧
    (m.BabylonPk ≠ none → m.Pop = none → 65535 < m.StakingTime.val →
      m.ValidateBasic env = .failure 56 (.errorf "empty proof of possession") ∧
      (m.ValidateBasic env).line ≠ some 76 ∧
      (m.ValidateBasic env).err ≠ some (stakingTimeError m.StakingTime.val)) := by
  refine ⟨?_, ?_⟩
  · rcases hb : m.BabylonPk with _ | b
    · exact ⟨.BabylonPk, by simp [delegationStep1, MsgCreateBTCDelegation.absent, hb],
        by simp [MsgCreateBTCDelegation.ValidateBasic, hb, DelegationField.line,
          DelegationField.missingFieldError]⟩
    rcases hp : m.Pop with _ | p
    · exact ⟨.Pop, by simp [delegationStep1, MsgCreateBTCDelegation.absent, hb, hp],
        by simp [MsgCreateBTCDelegation.ValidateBasic, hb, hp, DelegationField.line,
          DelegationField.missingFieldError]⟩
    rcases hk : m.BtcPk with _ | k
    · exact ⟨.BtcPk, by simp [delegationStep1, MsgCreateBTCDelegation.absent, hb, hp, hk],
        by simp [MsgCreateBTCDelegation.ValidateBasic, hb, hp, hk, DelegationField.line,
          DelegationField.missingFieldError]⟩
    rcases hs : m.StakingTx with _ | s
    · exact ⟨.StakingTx,
        by simp [delegationStep1, MsgCreateBTCDelegation.absent, hb, hp, hk, hs],
        by simp [MsgCreateBTCDelegation.ValidateBasic, hb, hp, hk, hs, DelegationField.line,
          DelegationField.missingFieldError]⟩
    rcases hl : m.SlashingTx with _ | l
    · exact ⟨.SlashingTx,
        by simp [delegationStep1, MsgCreateBTCDelegation.absent, hb, hp, hk, hs, hl],
        by simp [MsgCreateBTCDelegation.ValidateBasic, hb, hp, hk, hs, hl,
          DelegationField.line, DelegationField.missingFieldError]⟩
    rcases hd : m.DelegatorSlashingSig with _ | d
    · exact ⟨.DelegatorSlashingSig,
        by simp [delegationStep1, MsgCreateBTCDelegation.absent, hb, hp, hk, hs, hl, hd],
        by simp [MsgCreateBTCDelegation.ValidateBasic, hb, hp, hk, hs, hl, hd,
          DelegationField.line, DelegationField.missingFieldError]⟩
    simp [hb, hp, hk, hs, hl, hd] at h
  · intro hb hp _
    obtain ⟨b, hb⟩ := Option.ne_none_iff_exists'.mp hb
    have hv : m.ValidateBasic env = .failure 56 (.errorf "empty proof of possession") := by
      simp [MsgCreateBTCDelegation.ValidateBasic, hb, hp]
    refine ⟨hv, ?_, ?_⟩
    · rw [hv]; simp [Result.line]
    · rw [hv]; simp [Result.err, stakingTimeError, Error.Wrapf]

/-- Instance of C1 at `delegationNoPop` with collaborators that reject
everything. -/
theorem delegation_earliest_absent_field_witness :
    delegationNoPop.Pop = none ∧ delegationNoPop.BabylonPk ≠ none ∧
    65535 < delegationNoPop.StakingTime.val ∧
    delegationStep1.find? delegationNoPop.absent = some .Pop ∧
    delegationNoPop.ValidateBasic rejectAll
      = .failure 56 (.errorf "empty proof of possession") :=
  ⟨rfl, by decide, by decide, by decide,
    ((delegation_earliest_absent_field rejectAll delegationNoPop
      (Or.inr (Or.inl rfl))).2 (by decide) rfl (by decide)).1⟩

/-- C2: when the six step-1 fields are present and Signer parses, a staking
time above 65535 makes `ValidateBasic` return, at line 76, `ErrInvalidStakingTx`
wrapped with the text that renders the offending value and the bound 65535
(for 70000: "invalid lock time: 70000, max: 65535"), whatever the validator
list, the self-checks and the unbonding fields are; the value can be read back
from the error; the staking-time check fails exactly for values above 65535,
so it does not fail at 65535. -/
theorem delegation_staking_time_bound (env : Collaborators) (m : MsgCreateBTCDelegation)
    (hBabylonPk : m.BabylonPk ≠ none) (hPop : m.Pop ≠ none) (hBtcPk : m.BtcPk ≠ none)
    (hStakingTx : m.StakingTx ≠ none) (hSlashingTx : m.SlashingTx ≠ none)
    (hSig : m.DelegatorSlashingSig ≠ none)
    (hSigner : ∃ a, env.AccAddressFromBech32 m.Signer = .ok a) :
    (65535 < m.StakingTime.val →
      m.ValidateBasic env = .failure 76 (ErrInvalidStakingTx.Wrapf
        ("invalid lock time: " ++ fmtD m.StakingTime.val ++ ", max: " ++ fmtD 65535))) ∧
    (m.StakingTime.val = 70000 →
      m.ValidateBasic env = .failure 76
        (.wrapped (.registered .InvalidStakingTx) "invalid lock time: 70000, max: 65535")) ∧
    (∀ t : Nat, (m.ValidateBasic env).line = some 76 →
      (m.ValidateBasic env).err = some (stakingTimeError t) → t = m.StakingTime.val) ∧
    ((m.ValidateBasic env).line = some 76 ↔ 65535 < m.StakingTime.val) ∧
    (m.StakingTime.val = 65535 → (m.ValidateBasic env).line ≠ some 76) := by
  obtain ⟨b, hb⟩ := Option.ne_none_iff_exists'.mp hBabylonPk
  obtain ⟨p, hp⟩ := Option.ne_none_iff_exists'.mp hPop
  obtain ⟨k, hk⟩ := Option.ne_none_iff_exists'.mp hBtcPk
  obtain ⟨s, hs⟩ := Option.ne_none_iff_exists'.mp hStakingTx
  obtain ⟨l, hl⟩ := Option.ne_none_iff_exists'.mp hSlashingTx
  obtain ⟨d, hd⟩ := Option.ne_none_iff_exists'.mp hSig
  obtain ⟨a, ha⟩ := hSigner
  have hgt : 65535 < m.StakingTime.val →
      m.ValidateBasic env = .failure 76 (ErrInvalidStakingTx.Wrapf
        ("invalid lock time: " ++ fmtD m.StakingTime.val ++ ", max: " ++ fmtD 65535)) := by
    intro ht
    simp [MsgCreateBTCDelegation.ValidateBasic, hb, hp, hk, hs, hl, hd, ha, MaxUint16, ht]
  have hle : m.StakingTime.val ≤ 65535 → (m.ValidateBasic env).line ≠ some 76 := by
    intro ht
    have ht2 : ¬ (65535 < m.StakingTime.val) := by omega
    simp only [MsgCreateBTCDelegation.ValidateBasic, hb, hp, hk, hs, hl, hd, ha, MaxUint16]
    simp only [Option.isNone_some, Bool.false_eq_true, if_false, gt_iff_lt, ht2]
    repeat' split
    all_goals simp [Result.line]
  refine ⟨hgt, ?_, ?_, ?_, ?_⟩
  · intro ht
    rw [hgt (by omega), ht]
    decide
  · intro t hline herr
    have ht : 65535 < m.StakingTime.val := by
      by_contra hc
      exact hle (by omega) hline
    rw [hgt ht] at herr
    simp only [Result.err, Option.some.injEq] at herr
    exact (stakingTimeError_injective herr).symm
  · constructor
    · intro hline
      by_contra hc
      exact hle (by omega) hline
    · intro ht
      rw [hgt ht]
      rfl
  · intro ht
    exact hle (by omega)

/-- Instance of C2: staking time 70000, every other field valid. -/
theorem delegation_staking_time_bound_witness :
    ({ goodDelegation with StakingTime := 70000 }).ValidateBasic acceptAll
      = .failure 76
        (.wrapped (.registered .InvalidStakingTx) "invalid lock time: 70000, max: 65535") :=
  (delegation_staking_time_bound acceptAll { goodDelegation with StakingTime := 70000 }
    (by decide) (by decide) (by decide) (by decide) (by decide) (by decide)
    ⟨[], rfl⟩).2.1 rfl

/-- C3: for a delegation request on which every check other than the two
time bounds passes, `ValidateBasic` succeeds exactly when StakingTime and
UnbondingTime are both at most 65535; with StakingTime within the bound and
UnbondingTime = 65536 it returns, at line 115, `ErrInvalidUnbondingTx` wrapped
with the text that renders 65536 and the bound 65535; with both equal to 65535
it succeeds. -/
theorem delegation_time_bounds (env : Collaborators) (m : MsgCreateBTCDelegation)
    (hBabylonPk : m.BabylonPk ≠ none) (hPop : m.Pop ≠ none) (hBtcPk : m.BtcPk ≠ none)
    (hStakingTx : m.StakingTx ≠ none) (hSlashingTx : m.SlashingTx ≠ none)
    (hSig : m.DelegatorSlashingSig ≠ none)
    (hUnbondingTx : m.UnbondingTx ≠ none)
    (hUnbondingSlashingTx : m.UnbondingSlashingTx ≠ none)
    (hUnbondingSig : m.DelegatorUnbondingSlashingSig ≠ none)
    (hSigner : ∃ a, env.AccAddressFromBech32 m.Signer = .ok a)
    (hNonEmpty : m.ValBtcPkList.len ≠ 0)
    (hNoDup : ExistsDup m.ValBtcPkList = false)
    (hStakingTxOk : ∀ s, m.StakingTx = some s → env.StakingTxValidateBasic s = none)
    (hPopOk : ∀ p, m.Pop = some p → env.PopValidateBasic p = none)
    (hSimple : ∃ tx, env.NewBTCTxFromBytes m.UnbondingTx.elems = .ok tx ∧
      env.IsSimpleTransfer tx = none) :
    (m.ValidateBasic env = .success ↔
      m.StakingTime.val ≤ 65535 ∧ m.UnbondingTime.val ≤ 65535) ∧
    (m.StakingTime.val ≤ 65535 → m.UnbondingTime.val = 65536 →
      m.ValidateBasic env = .failure 115
        (.wrapped (.registered .InvalidUnbondingTx)
          "unbonding time 65536 must be lower than 65535")) ∧
    (m.StakingTime.val = 65535 → m.UnbondingTime.val = 65535 →
      m.ValidateBasic env = .success) := by
  obtain ⟨b, hb⟩ := Option.ne_none_iff_exists'.mp hBabylonPk
  obtain ⟨p, hp⟩ := Option.ne_none_iff_exists'.mp hPop
  obtain ⟨k, hk⟩ := Option.ne_none_iff_exists'.mp hBtcPk
  obtain ⟨s, hs⟩ := Option.ne_none_iff_exists'.mp hStakingTx
  obtain ⟨l, hl⟩ := Option.ne_none_iff_exists'.mp hSlashingTx
  obtain ⟨d, hd⟩ := Option.ne_none_iff_exists'.mp hSig
  obtain ⟨u, hu⟩ := Option.ne_none_iff_exists'.mp hUnbondingTx
  obtain ⟨v, hv⟩ := Option.ne_none_iff_exists'.mp hUnbondingSlashingTx
  obtain ⟨w, hw⟩ := Option.ne_none_iff_exists'.mp hUnbondingSig
  obtain ⟨a, ha⟩ := hSigner
  obtain ⟨tx, htx, hsimple⟩ := hSimple
  have hsok := hStakingTxOk s hs
  have hpok := hPopOk p hp
  rw [hu] at htx
  have key : m.ValidateBasic env =
      if 65535 < m.StakingTime.val then .failure 76 (stakingTimeError m.StakingTime.val)
      else if 65535 < m.UnbondingTime.val then
        .failure 115 (unbondingTimeError m.UnbondingTime.val)
      else .success := by
    simp [MsgCreateBTCDelegation.ValidateBasic, hb, hp, hk, hs, hl, hd, hu, hv, hw, ha, htx,
      hsimple, hsok, hpok, hNonEmpty, hNoDup, MaxUint16, uint64_of_uint32, stakingTimeError,
      unbondingTimeError]
  refine ⟨?_, ?_, ?_⟩
  · rw [key]
    constructor
    · intro h
      split at h
      · exact absurd h (by simp)
      · split at h
        · exact absurd h (by simp)
        · omega
    · rintro ⟨h1, h2⟩
      rw [if_neg (by omega), if_neg (by omega)]
  · intro h1 h2
    rw [key, if_neg (by omega), if_pos (by omega), h2]
    decide
  · intro h1 h2
    rw [key, if_neg (by omega), if_neg (by omega)]

/-- Instance of C3: staking time 65535 and unbonding time 65536 on an
otherwise valid request. -/
theorem delegation_time_bounds_witness :
    ({ goodDelegation with StakingTime := 65535, UnbondingTime := 65536 }).ValidateBasic
      acceptAll = .failure 115
        (.wrapped (.registered .InvalidUnbondingTx)
          "unbonding time 65536 must be lower than 65535") :=
  (delegation_time_bounds acceptAll
    { goodDelegation with StakingTime := 65535, UnbondingTime := 65536 }
    (by decide) (by decide) (by decide) (by decide) (by decide) (by decide) (by decide)
    (by decide) (by decide) ⟨[], rfl⟩ (by decide) (by decide) (fun _ _ => rfl)
    (fun _ _ => rfl) ⟨_, rfl, rfl⟩).2.1 (by decide) rfl

/-! ## Delegation requests: the validator list -/

theorem ExistsDupList_iff_not_nodup (l : List BIP340PubKey) :
    ExistsDupList l = true ↔ ¬ l.Nodup := by
  induction l with
  | nil => simp [ExistsDupList]
  | cons k ks ih =>
    simp only [ExistsDupList, Bool.or_eq_true, decide_eq_true_eq, ih, List.nodup_cons]
    tauto

theorem ExistsDupList_iff_positions (l : List BIP340PubKey) :
    ExistsDupList l = true ↔ ∃ i j : Nat, i < j ∧ j < l.length ∧ l[i]? = l[j]? := by
  rw [ExistsDupList_iff_not_nodup, List.nodup_iff_getElem?_ne_getElem?]
  push_neg
  rfl

theorem ExistsDupList_perm {l₁ l₂ : List BIP340PubKey} (h : l₁.Perm l₂) :
    ExistsDupList l₁ = ExistsDupList l₂ := by
  rw [Bool.eq_iff_iff, ExistsDupList_iff_not_nodup, ExistsDupList_iff_not_nodup, h.nodup_iff]

theorem ExistsDupList_map {f : BIP340PubKey → BIP340PubKey} (hf : Function.Injective f)
    (l : List BIP340PubKey) : ExistsDupList (l.map f) = ExistsDupList l := by
  rw [Bool.eq_iff_iff, ExistsDupList_iff_not_nodup, ExistsDupList_iff_not_nodup,
    List.nodup_map_iff hf]

/-- C4: for a delegation request that passes the presence, address and
staking-time checks: an empty validator list gives `ErrEmptyValidatorList`
(line 80); a non-empty list in which some key stands at two positions (such as
[A, A]) gives `ErrDuplicatedValidator` (line 84); a non-empty list of pairwise
distinct keys (such as [A, B] with A ≠ B) fails neither of these two checks;
reordering the list does not change the result, and neither does replacing
the keys by others that are equal exactly where the original keys are. -/
theorem delegation_validator_list (env : Collaborators) (m : MsgCreateBTCDelegation)
    (hBabylonPk : m.BabylonPk ≠ none) (hPop : m.Pop ≠ none) (hBtcPk : m.BtcPk ≠ none)
    (hStakingTx : m.StakingTx ≠ none) (hSlashingTx : m.SlashingTx ≠ none)
    (hSig : m.DelegatorSlashingSig ≠ none)
    (hSigner : ∃ a, env.AccAddressFromBech32 m.Signer = .ok a)
    (hTime : m.StakingTime.val ≤ 65535) :
    (m.ValBtcPkList.len = 0 → m.ValidateBasic env = .failure 80 ErrEmptyValidatorList) ∧
    (m.ValBtcPkList.len ≠ 0 →
      (∃ i j : Nat, i < j ∧ j < m.ValBtcPkList.len ∧
        m.ValBtcPkList.elems[i]? = m.ValBtcPkList.elems[j]?) →
      m.ValidateBasic env = .failure 84 ErrDuplicatedValidator) ∧
    (m.ValBtcPkList.len ≠ 0 →
      (∀ i j : Nat, i < j → j < m.ValBtcPkList.len →
        m.ValBtcPkList.elems[i]? ≠ m.ValBtcPkList.elems[j]?) →
      (m.ValidateBasic env).line ≠ some 80 ∧ (m.ValidateBasic env).line ≠ some 84) ∧
    (∀ A, m.ValBtcPkList = some [A, A] →
      m.ValidateBasic env = .failure 84 ErrDuplicatedValidator) ∧
    (∀ A B, A ≠ B → m.ValBtcPkList = some [A, B] →
      (m.ValidateBasic env).line ≠ some 80 ∧ (m.ValidateBasic env).line ≠ some 84) ∧
    (∀ l₁ l₂ : List BIP340PubKey, l₁.Perm l₂ →
      ({ m with ValBtcPkList := some l₁ }).ValidateBasic env
        = ({ m with ValBtcPkList := some l₂ }).ValidateBasic env) ∧
    (∀ (f : BIP340PubKey → BIP340PubKey) (l : List BIP340PubKey), Function.Injective f →
      ({ m with ValBtcPkList := some (l.map f) }).ValidateBasic env
        = ({ m with ValBtcPkList := some l }).ValidateBasic env) := by
  obtain ⟨b, hb⟩ := Option.ne_none_iff_exists'.mp hBabylonPk
  obtain ⟨p, hp⟩ := Option.ne_none_iff_exists'.mp hPop
  obtain ⟨k, hk⟩ := Option.ne_none_iff_exists'.mp hBtcPk
  obtain ⟨s, hs⟩ := Option.ne_none_iff_exists'.mp hStakingTx
  obtain ⟨l, hl⟩ := Option.ne_none_iff_exists'.mp hSlashingTx
  obtain ⟨d, hd⟩ := Option.ne_none_iff_exists'.mp hSig
  obtain ⟨a, ha⟩ := hSigner
  have ht : ¬ (65535 < m.StakingTime.val) := by omega
  have hlen : ∀ x : Slice BIP340PubKey, x.len = x.elems.length := by
    intro x; cases x <;> rfl
  have hempty : m.ValBtcPkList.len = 0 →
      m.ValidateBasic env = .failure 80 ErrEmptyValidatorList := by
    intro h0
    simp [MsgCreateBTCDelegation.ValidateBasic, hb, hp, hk, hs, hl, hd, ha, MaxUint16, ht, h0]
  have hdup : m.ValBtcPkList.len ≠ 0 → ExistsDup m.ValBtcPkList = true →
      m.ValidateBasic env = .failure 84 ErrDuplicatedValidator := by
    intro h0 h1
    simp [MsgCreateBTCDelegation.ValidateBasic, hb, hp, hk, hs, hl, hd, ha, MaxUint16, ht, h0,
      h1]
  have hpass : m.ValBtcPkList.len ≠ 0 → ExistsDup m.ValBtcPkList = false →
      (m.ValidateBasic env).line ≠ some 80 ∧ (m.ValidateBasic env).line ≠ some 84 := by
    intro h0 h1
    simp only [MsgCreateBTCDelegation.ValidateBasic, hb, hp, hk, hs, hl, hd, ha, MaxUint16]
    simp only [Option.isNone_some, Bool.false_eq_true, if_false, gt_iff_lt, ht, h0, h1]
    repeat' split
    all_goals simp [Result.line]
  refine ⟨hempty, ?_, ?_, ?_, ?_, ?_, ?_⟩
  · intro h0 hpos
    rw [hlen] at hpos
    exact hdup h0 ((ExistsDupList_iff_positions _).mpr hpos)
  · intro h0 hpos
    rw [hlen] at hpos
    refine hpass h0 ?_
    rw [ExistsDup, Bool.eq_false_iff, Ne, ExistsDupList_iff_positions]
    rintro ⟨i, j, hij, hj, heq⟩
    exact hpos i j hij hj heq
  · intro A hA
    exact hdup (by simp [hA, Slice.len]) (by simp [hA, ExistsDup, Slice.elems, ExistsDupList])
  · intro A B hAB hA
    exact hpass (by simp [hA, Slice.len])
      (by simp [hA, ExistsDup, Slice.elems, ExistsDupList, hAB])
  · intro l₁ l₂ hperm
    have e1 : ExistsDup (some l₁) = ExistsDup (some l₂) := ExistsDupList_perm hperm
    have e2 : (Slice.len (some l₁) = 0) ↔ (Slice.len (some l₂) = 0) := by
      simp [Slice.len, hperm.length_eq]
    simp only [MsgCreateBTCDelegation.ValidateBasic, e1, e2]
  · intro f l hf
    have e1 : ExistsDup (some (l.map f)) = ExistsDup (some l) := ExistsDupList_map hf l
    have e2 : (Slice.len (some (l.map f)) = 0) ↔ (Slice.len (some l) = 0) := by
      simp [Slice.len]
    simp only [MsgCreateBTCDelegation.ValidateBasic, e1, e2]

/-- Instance of C4: the validator list [A, A] on an otherwise valid
request. -/
theorem delegation_validator_list_witness :
    ({ goodDelegation with ValBtcPkList := some [[10], [10]] }).ValidateBasic acceptAll
      = .failure 84 ErrDuplicatedValidator :=
  (delegation_validator_list acceptAll
    { goodDelegation with ValBtcPkList := some [[10], [10]] }
    (by decide) (by decide) (by decide) (by decide) (by decide) (by decide)
    ⟨[], rfl⟩ (by decide)).2.2.2.1 [10] rfl

/-! ## Validator registration -/

theorem validator_eq_firstFailure (env : Collaborators) (m : MsgCreateBTCValidator) :
    m.ValidateBasic env = firstFailure (validatorChecks env m) := by
  unfold validatorChecks
  rcases hc : m.Commission with _ | c
  · simp [MsgCreateBTCValidator.ValidateBasic, firstFailure, checkThat, *]
  rcases hd : m.Description with _ | d
  · simp [MsgCreateBTCValidator.ValidateBasic, firstFailure, checkThat, *]
  rcases he : env.EnsureLength d with e | d'
  · simp [MsgCreateBTCValidator.ValidateBasic, firstFailure, checkThat, checkBy, errorOf, *]
  rcases hb : m.BabylonPk with _ | b
  · simp [MsgCreateBTCValidator.ValidateBasic, firstFailure, checkThat, checkBy, errorOf, *]
  rcases hk : m.BtcPk with _ | k
  · simp [MsgCreateBTCValidator.ValidateBasic, firstFailure, checkThat, checkBy, errorOf, *]
  rcases hp : m.Pop with _ | pop
  · simp [MsgCreateBTCValidator.ValidateBasic, firstFailure, checkThat, checkBy, errorOf, *]
  rcases ha : env.AccAddressFromBech32 m.Signer with e | a
  · simp [MsgCreateBTCValidator.ValidateBasic, firstFailure, checkThat, checkBy, errorOf, *]
  rcases hv : env.PopValidateBasic pop with _ | e
  · simp [MsgCreateBTCValidator.ValidateBasic, firstFailure, checkThat, checkBy, errorOf, *]
  · simp [MsgCreateBTCValidator.ValidateBasic, firstFailure, checkThat, checkBy, errorOf, *]

/-- C5: `MsgCreateBTCValidator.ValidateBasic` returns the report of the first
failing check in the order Commission present, Description present,
description length bound, BabylonPk present, BtcPk present, Pop present,
Signer parses, Pop structural validation; it succeeds exactly when all eight
pass; when Commission is absent it returns "empty commission" (line 24)
whatever the other fields and the collaborators are. -/
theorem validator_first_failing_check (env : Collaborators) (m : MsgCreateBTCValidator) :
    m.ValidateBasic env = firstFailure (validatorChecks env m) ∧
    (m.ValidateBasic env = .success ↔
      m.Commission ≠ none ∧
      (∃ d, m.Description = some d ∧ ∃ d', env.EnsureLength d = .ok d') ∧
      m.BabylonPk ≠ none ∧ m.BtcPk ≠ none ∧
      (∃ a, env.AccAddressFromBech32 m.Signer = .ok a) ∧
      (∃ pop, m.Pop = some pop ∧ env.PopValidateBasic pop = none)) ∧
    (m.Commission = none → m.ValidateBasic env = .failure 24 (.errorf "empty commission")) := by
  refine ⟨validator_eq_firstFailure env m, ?_, ?_⟩
  · rcases hc : m.Commission with _ | c
    · simp [MsgCreateBTCValidator.ValidateBasic, hc]
    rcases hd : m.Description with _ | d
    · simp [MsgCreateBTCValidator.ValidateBasic, hc, hd]
    rcases he : env.EnsureLength d with e | d'
    · simp [MsgCreateBTCValidator.ValidateBasic, hc, hd, he]
    rcases hb : m.BabylonPk with _ | b
    · simp [MsgCreateBTCValidator.ValidateBasic, hc, hd, he, hb]
    rcases hk : m.BtcPk with _ | k
    · simp [MsgCreateBTCValidator.ValidateBasic, hc, hd, he, hb, hk]
    rcases hp : m.Pop with _ | pop
    · simp [MsgCreateBTCValidator.ValidateBasic, hc, hd, he, hb, hk, hp]
    rcases ha : env.AccAddressFromBech32 m.Signer with e | a
    · simp [MsgCreateBTCValidator.ValidateBasic, hc, hd, he, hb, hk, hp, ha]
    rcases hv : env.PopValidateBasic pop with _ | e
    · simp [MsgCreateBTCValidator.ValidateBasic, hc, hd, he, hb, hk, hp, ha, hv]
    · simp [MsgCreateBTCValidator.ValidateBasic, hc, hd, he, hb, hk, hp, ha, hv]
  · intro hc
    simp [MsgCreateBTCValidator.ValidateBasic, hc]

/-- Instance of C5: a registration without commission, with collaborators
that reject everything. -/
theorem validator_first_failing_check_witness :
    ({ goodValidator with Commission := none }).ValidateBasic rejectAll
      = .failure 24 (.errorf "empty commission") :=
  (validator_first_failing_check rejectAll { goodValidator with Commission := none }).2.2 rfl

/-! ## Covenant signatures and undelegation -/

theorem covenant_eq_firstFailure (m : MsgAddCovenantSigs) :
    m.ValidateBasic = firstFailure (covenantChecks m) := by
  unfold covenantChecks
  rcases hk : m.Pk with _ | k
  · simp [MsgAddCovenantSigs.ValidateBasic, firstFailure, checkThat, *]
  rcases hs : m.SlashingTxSigs with _ | sg
  · simp [MsgAddCovenantSigs.ValidateBasic, firstFailure, checkThat, *]
  by_cases hlen : strlen m.StakingTxHash = 64
  · rcases hu : m.UnbondingTxSig with _ | u
    · simp [MsgAddCovenantSigs.ValidateBasic, firstFailure, checkThat, MaxHashStringSize, *]
    rcases hv : m.SlashingUnbondingTxSigs with _ | v
    · simp [MsgAddCovenantSigs.ValidateBasic, firstFailure, checkThat, MaxHashStringSize, *]
    · simp [MsgAddCovenantSigs.ValidateBasic, firstFailure, checkThat, MaxHashStringSize, *]
  · simp [MsgAddCovenantSigs.ValidateBasic, firstFailure, checkThat, MaxHashStringSize,
      hashLengthText, *]

/-- C6: `MsgAddCovenantSigs.ValidateBasic` returns the report of the first
failing check in the order Pk present, SlashingTxSigs present, length of
StakingTxHash equals 64, UnbondingTxSig present, SlashingUnbondingTxSigs
present, and succeeds exactly when all five hold; with Pk absent it returns
the empty-public-key error whatever the hash is, and with Pk and
SlashingTxSigs present and a hash of another length than 64 it returns the
hash-length error whether or not UnbondingTxSig is present. -/
theorem covenant_first_failing_check (m : MsgAddCovenantSigs) :
    m.ValidateBasic = firstFailure (covenantChecks m) ∧
    (m.ValidateBasic = .success ↔
      m.Pk ≠ none ∧ m.SlashingTxSigs ≠ none ∧ strlen m.StakingTxHash = 64 ∧
      m.UnbondingTxSig ≠ none ∧ m.SlashingUnbondingTxSigs ≠ none) ∧
    (m.Pk = none →
      m.ValidateBasic = .failure 123 (.errorf "empty BTC covenant public key")) ∧
    (m.Pk ≠ none → m.SlashingTxSigs ≠ none → strlen m.StakingTxHash ≠ 64 →
      m.ValidateBasic = .failure 129 (.errorf "staking tx hash is not 64")) := by
  refine ⟨covenant_eq_firstFailure m, ?_, ?_, ?_⟩
  · rcases hk : m.Pk with _ | k
    · simp [MsgAddCovenantSigs.ValidateBasic, hk]
    rcases hs : m.SlashingTxSigs with _ | sg
    · simp [MsgAddCovenantSigs.ValidateBasic, hk, hs]
    by_cases hlen : strlen m.StakingTxHash = 64
    · rcases hu : m.UnbondingTxSig with _ | u
      · simp [MsgAddCovenantSigs.ValidateBasic, hk, hs, hlen, hu, MaxHashStringSize]
      rcases hv : m.SlashingUnbondingTxSigs with _ | v
      · simp [MsgAddCovenantSigs.ValidateBasic, hk, hs, hlen, hu, hv, MaxHashStringSize]
      · simp [MsgAddCovenantSigs.ValidateBasic, hk, hs, hlen, hu, hv, MaxHashStringSize]
    · simp [MsgAddCovenantSigs.ValidateBasic, hk, hs, hlen, MaxHashStringSize]
  · intro hk
    simp [MsgAddCovenantSigs.ValidateBasic, hk]
  · intro hk hs hlen
    obtain ⟨k, hk⟩ := Option.ne_none_iff_exists'.mp hk
    obtain ⟨sg, hs⟩ := Option.ne_none_iff_exists'.mp hs
    simp [MsgAddCovenantSigs.ValidateBasic, hk, hs, hlen, hashLengthText, MaxHashStringSize]

/-- Instance of C6 at `covenantShortHash`. -/
theorem covenant_first_failing_check_witness :
    strlen covenantShortHash.StakingTxHash = 10 ∧ covenantShortHash.UnbondingTxSig = none ∧
    covenantShortHash.ValidateBasic
      = .failure 129 (.errorf "staking tx hash is not 64") :=
  ⟨by decide, rfl,
    (covenant_first_failing_check covenantShortHash).2.2.2 (by decide) (by decide)
      (by decide)⟩

/-- C7: `MsgBTCUndelegate.ValidateBasic` succeeds exactly when StakingTxHash
has length 64 and UnbondingTxSig is present; a length other than 64 (such as
63 or 65) gives the hash-length error of line 145 even when the signature is
absent too; length 64 without signature gives the empty-signature error of
line 149. In `MsgAddCovenantSigs.ValidateBasic` with Pk and SlashingTxSigs
present the same test decides the third check: it fails (line 129) exactly
when the length is not 64, so at 63 and 65 and not at 64. -/
theorem undelegate_hash_length (u : MsgBTCUndelegate) (c : MsgAddCovenantSigs) :
    (u.ValidateBasic = .success ↔ strlen u.StakingTxHash = 64 ∧ u.UnbondingTxSig ≠ none) ∧
    (strlen u.StakingTxHash ≠ 64 →
      u.ValidateBasic = .failure 145 (.errorf "staking tx hash is not 64")) ∧
    (strlen u.StakingTxHash = 64 → u.UnbondingTxSig = none →
      u.ValidateBasic = .failure 149 (.errorf "empty signature from the delegator")) ∧
    (c.Pk ≠ none → c.SlashingTxSigs ≠ none →
      (c.ValidateBasic.line = some 129 ↔ strlen c.StakingTxHash ≠ 64) ∧
      (strlen c.StakingTxHash = 63 ∨ strlen c.StakingTxHash = 65 →
        c.ValidateBasic = .failure 129 (.errorf "staking tx hash is not 64")) ∧
      (strlen c.StakingTxHash = 64 → c.ValidateBasic.line ≠ some 129)) := by
  have hu : strlen u.StakingTxHash ≠ 64 →
      u.ValidateBasic = .failure 145 (.errorf "staking tx hash is not 64") := by
    intro hlen
    simp [MsgBTCUndelegate.ValidateBasic, hlen, hashLengthText, MaxHashStringSize]
  refine ⟨?_, hu, ?_, ?_⟩
  · by_cases hlen : strlen u.StakingTxHash = 64
    · rcases hs : u.UnbondingTxSig with _ | sg
      · simp [MsgBTCUndelegate.ValidateBasic, hlen, hs, MaxHashStringSize]
      · simp [MsgBTCUndelegate.ValidateBasic, hlen, hs, MaxHashStringSize]
    · simp [hu hlen, hlen]
  · intro hlen hs
    simp [MsgBTCUndelegate.ValidateBasic, hlen, hs, MaxHashStringSize]
  · intro hk hs
    obtain ⟨k, hk⟩ := Option.ne_none_iff_exists'.mp hk
    obtain ⟨sg, hs⟩ := Option.ne_none_iff_exists'.mp hs
    have hfail : strlen c.StakingTxHash ≠ 64 →
        c.ValidateBasic = .failure 129 (.errorf "staking tx hash is not 64") := by
      intro hlen
      simp [MsgAddCovenantSigs.ValidateBasic, hk, hs, hlen, hashLengthText, MaxHashStringSize]
    have hpass : strlen c.StakingTxHash = 64 → c.ValidateBasic.line ≠ some 129 := by
      intro hlen
      simp only [MsgAddCovenantSigs.ValidateBasic, hk, hs, hlen, MaxHashStringSize]
      simp only [Option.isNone_some, Bool.false_eq_true, if_false, ne_eq, not_true_eq_false]
      repeat' split
      all_goals simp [Result.line]
    refine ⟨⟨?_, ?_⟩, ?_, hpass⟩
    · intro hline hlen
      exact hpass hlen hline
    · intro hlen
      rw [hfail hlen]
      rfl
    · intro h
      exact hfail (by omega)

/-- Instance of C7: an undelegation request with a hash of 63 bytes and no
signature, and a covenant signature set with the same hash. -/
theorem undelegate_hash_length_witness :
    strlen hash63 = 63 ∧
    MsgBTCUndelegate.ValidateBasic ⟨hash63, none⟩
      = .failure 145 (.errorf "staking tx hash is not 64") ∧
    ({ goodCovenantSigs with StakingTxHash := hash63 }).ValidateBasic
      = .failure 129 (.errorf "staking tx hash is not 64") :=
  ⟨by decide,
    (undelegate_hash_length ⟨hash63, none⟩
      { goodCovenantSigs with StakingTxHash := hash63 }).2.1 (by decide),
    ((undelegate_hash_length ⟨hash63, none⟩
      { goodCovenantSigs with StakingTxHash := hash63 }).2.2.2 (by decide) (by decide)).2.1
      (Or.inl (by decide))⟩

/-! ## Delegation requests: the simple-transfer classifier -/

/-- C8 (as stated, refuted): on a request that passes checks 1-9 and whose
decoded unbonding transaction the classifier rejects with the reason "tx must
have exactly 1 input", `ValidateBasic` returns that reason itself at line 110;
the returned error is not of kind `ErrInvalidUnbondingTx`. -/
theorem delegation_simple_transfer_wrapped_counterexample :
    rejectSimpleTransfer.NewBTCTxFromBytes goodDelegation.UnbondingTx.elems
      = .ok ⟨[[8]], [[8]]⟩ ∧
    rejectSimpleTransfer.IsSimpleTransfer ⟨[[8]], [[8]]⟩
      = some (.errorf "tx must have exactly 1 input") ∧
    goodDelegation.ValidateBasic rejectSimpleTransfer
      = .failure 110 (.errorf "tx must have exactly 1 input") ∧
    (goodDelegation.ValidateBasic rejectSimpleTransfer).err.bind Error.kind
      ≠ some .InvalidUnbondingTx :=
  ⟨rfl, rfl, by decide, by decide⟩

/-- C8 (amended): on a delegation request that passes checks 1-9, if the
simple-transfer classifier rejects the decoded unbonding transaction with
reason `r`, then `ValidateBasic` returns `r` itself, unchanged, at line 110. -/
theorem delegation_simple_transfer_passthrough (env : Collaborators)
    (m : MsgCreateBTCDelegation) (tx : MsgTx) (r : Error)
    (hBabylonPk : m.BabylonPk ≠ none) (hPop : m.Pop ≠ none) (hBtcPk : m.BtcPk ≠ none)
    (hStakingTx : m.StakingTx ≠ none) (hSlashingTx : m.SlashingTx ≠ none)
    (hSig : m.DelegatorSlashingSig ≠ none)
    (hSigner : ∃ a, env.AccAddressFromBech32 m.Signer = .ok a)
    (hTime : m.StakingTime.val ≤ 65535)
    (hNonEmpty : m.ValBtcPkList.len ≠ 0)
    (hNoDup : ExistsDup m.ValBtcPkList = false)
    (hStakingTxOk : ∀ s, m.StakingTx = some s → env.StakingTxValidateBasic s = none)
    (hPopOk : ∀ p, m.Pop = some p → env.PopValidateBasic p = none)
    (hUnbondingTx : m.UnbondingTx ≠ none)
    (hUnbondingSlashingTx : m.UnbondingSlashingTx ≠ none)
    (hUnbondingSig : m.DelegatorUnbondingSlashingSig ≠ none)
    (hDecode : env.NewBTCTxFromBytes m.UnbondingTx.elems = .ok tx)
    (hReject : env.IsSimpleTransfer tx = some r) :
    m.ValidateBasic env = .failure 110 r ∧ (m.ValidateBasic env).err = some r := by
  obtain ⟨b, hb⟩ := Option.ne_none_iff_exists'.mp hBabylonPk
  obtain ⟨p, hp⟩ := Option.ne_none_iff_exists'.mp hPop
  obtain ⟨k, hk⟩ := Option.ne_none_iff_exists'.mp hBtcPk
  obtain ⟨s, hs⟩ := Option.ne_none_iff_exists'.mp hStakingTx
  obtain ⟨l, hl⟩ := Option.ne_none_iff_exists'.mp hSlashingTx
  obtain ⟨d, hd⟩ := Option.ne_none_iff_exists'.mp hSig
  obtain ⟨u, hu⟩ := Option.ne_none_iff_exists'.mp hUnbondingTx
  obtain ⟨v, hv⟩ := Option.ne_none_iff_exists'.mp hUnbondingSlashingTx
  obtain ⟨w, hw⟩ := Option.ne_none_iff_exists'.mp hUnbondingSig
  obtain ⟨a, ha⟩ := hSigner
  have hsok := hStakingTxOk s hs
  have hpok := hPopOk p hp
  have ht : ¬ (65535 < m.StakingTime.val) := by omega
  rw [hu] at hDecode
  have hres : m.ValidateBasic env = .failure 110 r := by
    simp [MsgCreateBTCDelegation.ValidateBasic, hb, hp, hk, hs, hl, hd, hu, hv, hw, ha, hDecode,
      hReject, hsok, hpok, hNonEmpty, hNoDup, MaxUint16, ht]
  exact ⟨hres, by rw [hres]; rfl⟩

/-- Instance of C8 (amended) at `goodDelegation` with `rejectSimpleTransfer`. -/
theorem delegation_simple_transfer_passthrough_witness :
    goodDelegation.ValidateBasic rejectSimpleTransfer
      = .failure 110 (.errorf "tx must have exactly 1 input") :=
  (delegation_simple_transfer_passthrough rejectSimpleTransfer goodDelegation ⟨[[8]], [[8]]⟩
    (.errorf "tx must have exactly 1 input")
    (by decide) (by decide) (by decide) (by decide) (by decide) (by decide) ⟨[], rfl⟩
    (by decide) (by decide) (by decide) (fun _ _ => rfl) (fun _ _ => rfl) (by decide)
    (by decide) (by decide) rfl rfl).1

/-! ## Missing-field errors -/

theorem firstFailure_mem (cs : List CheckOutcome) (l : Nat) (e : Error)
    (h : firstFailure cs = .failure l e) : some (l, e) ∈ cs := by
  induction cs with
  | nil => simp [firstFailure] at h
  | cons c cs ih =>
    rcases c with _ | ⟨l', e'⟩
    · exact List.mem_cons_of_mem _ (ih (by simpa [firstFailure] using h))
    · simp only [firstFailure, Result.failure.injEq] at h
      rw [h.1, h.2]
      exact List.mem_cons_self _ _

theorem delegation_eq_firstFailure (env : Collaborators) (m : MsgCreateBTCDelegation) :
    m.ValidateBasic env = firstFailure (delegationChecks env m) := by
  unfold delegationChecks
  rcases hb : m.BabylonPk with _ | b
  · simp [MsgCreateBTCDelegation.ValidateBasic, firstFailure, checkThat, *]
  rcases hp : m.Pop with _ | p
  · simp [MsgCreateBTCDelegation.ValidateBasic, firstFailure, checkThat, *]
  rcases hk : m.BtcPk with _ | k
  · simp [MsgCreateBTCDelegation.ValidateBasic, firstFailure, checkThat, *]
  rcases hs : m.StakingTx with _ | s
  · simp [MsgCreateBTCDelegation.ValidateBasic, firstFailure, checkThat, *]
  rcases hl : m.SlashingTx with _ | l
  · simp [MsgCreateBTCDelegation.ValidateBasic, firstFailure, checkThat, *]
  rcases hd : m.DelegatorSlashingSig with _ | d
  · simp [MsgCreateBTCDelegation.ValidateBasic, firstFailure, checkThat, *]
  rcases ha : env.AccAddressFromBech32 m.Signer with e | a
  · simp [MsgCreateBTCDelegation.ValidateBasic, firstFailure, checkThat, checkBy, errorOf, *]
  by_cases ht : 65535 < m.StakingTime.val
  · simp [MsgCreateBTCDelegation.ValidateBasic, firstFailure, checkThat, checkBy, errorOf,
      MaxUint16, stakingTimeError, *]
  by_cases hn : m.ValBtcPkList.len = 0
  · simp [MsgCreateBTCDelegation.ValidateBasic, firstFailure, checkThat, checkBy, errorOf,
      MaxUint16, *]
  by_cases hx : ExistsDup m.ValBtcPkList = true
  · simp [MsgCreateBTCDelegation.ValidateBasic, firstFailure, checkThat, checkBy, errorOf,
      MaxUint16, *]
  rcases hsv : env.StakingTxValidateBasic s with _ | e
  swap
  · simp [MsgCreateBTCDelegation.ValidateBasic, firstFailure, checkThat, checkBy, errorOf,
      MaxUint16, *]
  rcases hpv : env.PopValidateBasic p with _ | e
  swap
  · simp [MsgCreateBTCDelegation.ValidateBasic, firstFailure, checkThat, checkBy, errorOf,
      MaxUint16, *]
  rcases hu : m.UnbondingTx with _ | u
  · simp [MsgCreateBTCDelegation.ValidateBasic, firstFailure, checkThat, checkBy, errorOf,
      MaxUint16, *]
  rcases hv : m.UnbondingSlashingTx with _ | v
  · simp [MsgCreateBTCDelegation.ValidateBasic, firstFailure, checkThat, checkBy, errorOf,
      MaxUint16, *]
  rcases hw : m.DelegatorUnbondingSlashingSig with _ | w
  · simp [MsgCreateBTCDelegation.ValidateBasic, firstFailure, checkThat, checkBy, errorOf,
      MaxUint16, *]
  rcases hdec : env.NewBTCTxFromBytes (Slice.elems (some u)) with e | tx
  · simp [MsgCreateBTCDelegation.ValidateBasic, firstFailure, checkThat, checkBy, errorOf,
      MaxUint16, *]
  rcases hst : env.IsSimpleTransfer tx with _ | e
  swap
  · simp [MsgCreateBTCDelegation.ValidateBasic, firstFailure, checkThat, checkBy, errorOf,
      valueOf, MaxUint16, *]
  by_cases hut : 65535 < m.UnbondingTime.val
  · simp [MsgCreateBTCDelegation.ValidateBasic, firstFailure, checkThat, checkBy, errorOf,
      valueOf, MaxUint16, unbondingTimeError, uint64_of_uint32, *]
  · simp [MsgCreateBTCDelegation.ValidateBasic, firstFailure, checkThat, checkBy, errorOf,
      valueOf, MaxUint16, uint64_of_uint32, *]

theorem mem_checkThat {l l' : Nat} {e e' : Error} {c : Bool}
    (h : some (l, e) = checkThat c l' e') : c = true ∧ l = l' ∧ e = e' := by
  unfold checkThat at h
  split at h
  · exact ⟨by assumption, by simpa using h⟩
  · simp at h

theorem mem_checkBy {l l' : Nat} {e : Error} {r : Option Error}
    (h : some (l, e) = checkBy l' r) : l = l' := by
  unfold checkBy at h
  cases r with
  | none => simp at h
  | some e' =>
    simp only [Option.map_some', Option.some.injEq, Prod.mk.injEq] at h
    exact h.1

theorem validator_error_of_line (env : Collaborators) (m : MsgCreateBTCValidator)
    (F : ValidatorField) (h : (m.ValidateBasic env).line = some F.line) :
    m.absent F = true ∧ (m.ValidateBasic env).err = some F.missingFieldError := by
  rw [validator_eq_firstFailure] at h ⊢
  generalize hres : firstFailure (validatorChecks env m) = res at h ⊢
  cases res with
  | failure l e =>
    have hmem := firstFailure_mem _ _ _ hres
    simp only [Result.line, Option.some.injEq] at h
    subst h
    simp only [Result.err, Option.some.injEq]
    simp only [validatorChecks, List.mem_cons, List.mem_singleton, List.not_mem_nil,
      or_false] at hmem
    rcases hmem with h | h | h | h | h | h | h | h
    all_goals first
      | (have h2 := mem_checkThat h; cases F <;>
          simp_all [ValidatorField.line, ValidatorField.missingFieldError, MsgCreateBTCValidator.absent])
      | (have h2 := mem_checkBy h; cases F <;> simp [ValidatorField.line] at h2)
  | success => simp [Result.line] at h
  | nilDereference => simp [Result.line] at h

theorem delegation_error_of_line (env : Collaborators) (m : MsgCreateBTCDelegation)
    (F : DelegationField) (h : (m.ValidateBasic env).line = some F.line) :
    m.absent F = true ∧ (m.ValidateBasic env).err = some F.missingFieldError := by
  rw [delegation_eq_firstFailure] at h ⊢
  generalize hres : firstFailure (delegationChecks env m) = res at h ⊢
  cases res with
  | failure l e =>
    have hmem := firstFailure_mem _ _ _ hres
    simp only [Result.line, Option.some.injEq] at h
    subst h
    simp only [Result.err, Option.some.injEq]
    simp only [delegationChecks, List.mem_cons, List.mem_singleton, List.not_mem_nil,
      or_false] at hmem
    rcases hmem with h | h | h | h | h | h | h | h | h | h | h | h | h | h | h | h | h | h
    all_goals first
      | (have h2 := mem_checkThat h; cases F <;>
          simp_all [DelegationField.line, DelegationField.missingFieldError, MsgCreateBTCDelegation.absent])
      | (have h2 := mem_checkBy h; cases F <;> simp [DelegationField.line] at h2)
  | success => simp [Result.line] at h
  | nilDereference => simp [Result.line] at h

theorem covenant_error_of_line (m : MsgAddCovenantSigs)
    (F : CovenantField) (h : m.ValidateBasic.line = some F.line) :
    m.absent F = true ∧ m.ValidateBasic.err = some F.missingFieldError := by
  rw [covenant_eq_firstFailure] at h ⊢
  generalize hres : firstFailure (covenantChecks m) = res at h ⊢
  cases res with
  | failure l e =>
    have hmem := firstFailure_mem _ _ _ hres
    simp only [Result.line, Option.some.injEq] at h
    subst h
    simp only [Result.err, Option.some.injEq]
    simp only [covenantChecks, List.mem_cons, List.mem_singleton, List.not_mem_nil,
      or_false] at hmem
    rcases hmem with h | h | h | h | h
    all_goals
      have h2 := mem_checkThat h
      cases F <;>
        simp_all [CovenantField.line, CovenantField.missingFieldError,
          MsgAddCovenantSigs.absent]
  | success => simp [Result.line] at h
  | nilDereference => simp [Result.line] at h

/-- C9 (as stated, refuted): in a delegation request the error for an absent
SlashingTx (line 65) equals the error for an absent UnbondingSlashingTx (line
100), and the error for an absent DelegatorSlashingSig (line 68) equals the
error for an absent DelegatorUnbondingSlashingSig (line 103); in a covenant
signature set the error for an absent UnbondingTxSig (line 134) equals the
error for an absent SlashingUnbondingTxSigs (line 137). -/
theorem missing_field_errors_distinct_counterexample :
    (delegationNoSlashingTx.ValidateBasic acceptAll
        = .failure 65 (.errorf "empty slashing tx") ∧
      delegationNoUnbondingSlashingTx.ValidateBasic acceptAll
        = .failure 100 (.errorf "empty slashing tx") ∧
      (delegationNoSlashingTx.ValidateBasic acceptAll).err
        = (delegationNoUnbondingSlashingTx.ValidateBasic acceptAll).err) ∧
    (delegationNoSlashingSig.ValidateBasic acceptAll
        = .failure 68 (.errorf "empty delegator signature") ∧
      delegationNoUnbondingSlashingSig.ValidateBasic acceptAll
        = .failure 103 (.errorf "empty delegator signature") ∧
      (delegationNoSlashingSig.ValidateBasic acceptAll).err
        = (delegationNoUnbondingSlashingSig.ValidateBasic acceptAll).err) ∧
    (covenantNoUnbondingSig.ValidateBasic
        = .failure 134 (.errorf "empty covenant signature") ∧
      covenantNoSlashingUnbondingSigs.ValidateBasic
        = .failure 137 (.errorf "empty covenant signature") ∧
      covenantNoUnbondingSig.ValidateBasic.err
        = covenantNoSlashingUnbondingSigs.ValidateBasic.err) := by
  decide

/-- C9 (amended): within each message kind, when `ValidateBasic` reports the
absence of a required field F on one message and of a different required
field G on another (F and G are then absent from the respective message), the
two returned errors differ, for every pair of fields other than SlashingTx /
UnbondingSlashingTx and DelegatorSlashingSig / DelegatorUnbondingSlashingSig
of a delegation request and UnbondingTxSig / SlashingUnbondingTxSigs of a
covenant signature set. -/
theorem missing_field_errors_distinct :
    (∀ (env env' : Collaborators) (m m' : MsgCreateBTCValidator) (F G : ValidatorField),
      (m.ValidateBasic env).line = some F.line →
      (m'.ValidateBasic env').line = some G.line → F ≠ G →
      m.absent F = true ∧ m'.absent G = true ∧
      (m.ValidateBasic env).err ≠ (m'.ValidateBasic env').err) ∧
    (∀ (env env' : Collaborators) (m m' : MsgCreateBTCDelegation) (F G : DelegationField),
      (m.ValidateBasic env).line = some F.line →
      (m'.ValidateBasic env').line = some G.line → F ≠ G →
      (F, G) ∉ delegationSharedText →
      m.absent F = true ∧ m'.absent G = true ∧
      (m.ValidateBasic env).err ≠ (m'.ValidateBasic env').err) ∧
    (∀ (m m' : MsgAddCovenantSigs) (F G : CovenantField),
      m.ValidateBasic.line = some F.line →
      m'.ValidateBasic.line = some G.line → F ≠ G →
      (F, G) ∉ covenantSharedText →
      m.absent F = true ∧ m'.absent G = true ∧
      m.ValidateBasic.err ≠ m'.ValidateBasic.err) := by
  refine ⟨?_, ?_, ?_⟩
  · intro env env' m m' F G hF hG hne
    obtain ⟨hFa, hFe⟩ := validator_error_of_line env m F hF
    obtain ⟨hGa, hGe⟩ := validator_error_of_line env' m' G hG
    refine ⟨hFa, hGa, ?_⟩
    rw [hFe, hGe]
    revert hne
    cases F <;> cases G <;> simp [ValidatorField.missingFieldError]
  · intro env env' m m' F G hF hG hne hshared
    obtain ⟨hFa, hFe⟩ := delegation_error_of_line env m F hF
    obtain ⟨hGa, hGe⟩ := delegation_error_of_line env' m' G hG
    refine ⟨hFa, hGa, ?_⟩
    rw [hFe, hGe]
    revert hne hshared
    cases F <;> cases G <;> simp [DelegationField.missingFieldError, delegationSharedText]
  · intro m m' F G hF hG hne hshared
    obtain ⟨hFa, hFe⟩ := covenant_error_of_line m F hF
    obtain ⟨hGa, hGe⟩ := covenant_error_of_line m' G hG
    refine ⟨hFa, hGa, ?_⟩
    rw [hFe, hGe]
    revert hne hshared
    cases F <;> cases G <;> simp [CovenantField.missingFieldError, covenantSharedText]

/-- Instance of C9 (amended): an absent SlashingTx against an absent
DelegatorUnbondingSlashingSig. -/
theorem missing_field_errors_distinct_witness :
    (delegationNoSlashingTx.ValidateBasic acceptAll).line = some 65 ∧
    (delegationNoUnbondingSlashingSig.ValidateBasic rejectSimpleTransfer).line = some 103 ∧
    (delegationNoSlashingTx.ValidateBasic acceptAll).err
      ≠ (delegationNoUnbondingSlashingSig.ValidateBasic rejectSimpleTransfer).err :=
  ⟨by decide, by decide,
    (missing_field_errors_distinct.2.1 acceptAll rejectSimpleTransfer delegationNoSlashingTx
      delegationNoUnbondingSlashingSig .SlashingTx .DelegatorUnbondingSlashingSig
      (by decide) (by decide) (by decide) (by decide)).2.2⟩

/-! ## The hash-length error -/

/-- C10 (as stated, refuted): two covenant signature sets with Pk and
SlashingTxSigs present and hashes of the different wrong lengths 10 and 11
receive the same error, whose text names the expected length only. -/
theorem covenant_hash_length_error_counterexample :
    covenantHash10.Pk ≠ none ∧ covenantHash10.SlashingTxSigs ≠ none ∧
    covenantHash11.Pk ≠ none ∧ covenantHash11.SlashingTxSigs ≠ none ∧
    strlen covenantHash10.StakingTxHash = 10 ∧ strlen covenantHash11.StakingTxHash = 11 ∧
    covenantHash10.ValidateBasic = .failure 129 (.errorf "staking tx hash is not 64") ∧
    covenantHash11.ValidateBasic = covenantHash10.ValidateBasic := by
  decide

/-- C10 (amended): for a covenant signature set with Pk and SlashingTxSigs
present and a StakingTxHash of length n ≠ 64, `ValidateBasic` returns at line
129 the hash-length error with the text "staking tx hash is not 64": it
carries the expected length 64 and does not depend on n, so two such messages
receive the same error whatever their wrong lengths are. -/
theorem covenant_hash_length_error (m m' : MsgAddCovenantSigs)
    (hPk : m.Pk ≠ none) (hSigs : m.SlashingTxSigs ≠ none)
    (hLen : strlen m.StakingTxHash ≠ 64)
    (hPk' : m'.Pk ≠ none) (hSigs' : m'.SlashingTxSigs ≠ none)
    (hLen' : strlen m'.StakingTxHash ≠ 64) :
    m.ValidateBasic = .failure 129 (.errorf ("staking tx hash is not " ++ fmtD 64)) ∧
    m.ValidateBasic = .failure 129 (.errorf "staking tx hash is not 64") ∧
    m'.ValidateBasic = m.ValidateBasic := by
  have key : ∀ x : MsgAddCovenantSigs, x.Pk ≠ none → x.SlashingTxSigs ≠ none →
      strlen x.StakingTxHash ≠ 64 →
      x.ValidateBasic = .failure 129 (.errorf "staking tx hash is not 64") := by
    intro x hk hs hl
    obtain ⟨k, hk⟩ := Option.ne_none_iff_exists'.mp hk
    obtain ⟨sg, hs⟩ := Option.ne_none_iff_exists'.mp hs
    simp [MsgAddCovenantSigs.ValidateBasic, hk, hs, hl, hashLengthText, MaxHashStringSize]
  refine ⟨?_, key m hPk hSigs hLen, ?_⟩
  · rw [key m hPk hSigs hLen, hashLengthText]
  · rw [key m hPk hSigs hLen, key m' hPk' hSigs' hLen']

/-- Instance of C10 (amended) at hashes of 10 and 11 bytes. -/
theorem covenant_hash_length_error_witness :
    strlen covenantHash10.StakingTxHash = 10 ∧ strlen covenantHash11.StakingTxHash = 11 ∧
    covenantHash11.ValidateBasic = covenantHash10.ValidateBasic :=
  ⟨by decide, by decide,
    (covenant_hash_length_error covenantHash10 covenantHash11 (by decide) (by decide)
      (by decide) (by decide) (by decide) (by decide)).2.2⟩

/-! ## Errors of collaborators -/

/-- C11: when `ValidateBasic` of a validator registration or of a delegation
request fails at a delegated check (description length bound, Signer address
parsing, StakingTx self-check, Pop self-check, unbonding-tx decoding), which
happens exactly when every earlier check passed and the collaborator returned
an error, the error returned is the very error `e` of the collaborator,
unchanged and not wrapped. -/
theorem collaborator_error_unchanged (env : Collaborators) (v : MsgCreateBTCValidator)
    (m : MsgCreateBTCDelegation) (e : Error) :
    (v.ValidateBasic env = .failure 30 e ↔
      v.Commission ≠ none ∧ ∃ d, v.Description = some d ∧ env.EnsureLength d = .error e) ∧
    (v.ValidateBasic env = .failure 42 e ↔
      v.Commission ≠ none ∧ (∃ d d', v.Description = some d ∧ env.EnsureLength d = .ok d') ∧
      v.BabylonPk ≠ none ∧ v.BtcPk ≠ none ∧ v.Pop ≠ none ∧
      env.AccAddressFromBech32 v.Signer = .error e) ∧
    (v.ValidateBasic env = .failure 45 e ↔
      v.Commission ≠ none ∧ (∃ d d', v.Description = some d ∧ env.EnsureLength d = .ok d') ∧
      v.BabylonPk ≠ none ∧ v.BtcPk ≠ none ∧
      (∃ a, env.AccAddressFromBech32 v.Signer = .ok a) ∧
      ∃ pop, v.Pop = some pop ∧ env.PopValidateBasic pop = some e) ∧
    (m.ValidateBasic env = .failure 71 e ↔
      m.BabylonPk ≠ none ∧ m.Pop ≠ none ∧ m.BtcPk ≠ none ∧ m.StakingTx ≠ none ∧
      m.SlashingTx ≠ none ∧ m.DelegatorSlashingSig ≠ none ∧
      env.AccAddressFromBech32 m.Signer = .error e) ∧
    (m.ValidateBasic env = .failure 89 e ↔
      m.BabylonPk ≠ none ∧ m.Pop ≠ none ∧ m.BtcPk ≠ none ∧
      m.SlashingTx ≠ none ∧ m.DelegatorSlashingSig ≠ none ∧
      (∃ a, env.AccAddressFromBech32 m.Signer = .ok a) ∧
      m.StakingTime.val ≤ 65535 ∧ m.ValBtcPkList.len ≠ 0 ∧ ExistsDup m.ValBtcPkList = false ∧
      ∃ s, m.StakingTx = some s ∧ env.StakingTxValidateBasic s = some e) ∧
    (m.ValidateBasic env = .failure 92 e ↔
      m.BabylonPk ≠ none ∧ m.BtcPk ≠ none ∧
      m.SlashingTx ≠ none ∧ m.DelegatorSlashingSig ≠ none ∧
      (∃ a, env.AccAddressFromBech32 m.Signer = .ok a) ∧
      m.StakingTime.val ≤ 65535 ∧ m.ValBtcPkList.len ≠ 0 ∧ ExistsDup m.ValBtcPkList = false ∧
      (∃ s, m.StakingTx = some s ∧ env.StakingTxValidateBasic s = none) ∧
      ∃ pop, m.Pop = some pop ∧ env.PopValidateBasic pop = some e) ∧
    (m.ValidateBasic env = .failure 107 e ↔
      m.BabylonPk ≠ none ∧ m.BtcPk ≠ none ∧
      m.SlashingTx ≠ none ∧ m.DelegatorSlashingSig ≠ none ∧
      (∃ a, env.AccAddressFromBech32 m.Signer = .ok a) ∧
      m.StakingTime.val ≤ 65535 ∧ m.ValBtcPkList.len ≠ 0 ∧ ExistsDup m.ValBtcPkList = false ∧
      (∃ s, m.StakingTx = some s ∧ env.StakingTxValidateBasic s = none) ∧
      (∃ pop, m.Pop = some pop ∧ env.PopValidateBasic pop = none) ∧
      m.UnbondingTx ≠ none ∧ m.UnbondingSlashingTx ≠ none ∧
      m.DelegatorUnbondingSlashingSig ≠ none ∧
      env.NewBTCTxFromBytes m.UnbondingTx.elems = .error e) := by
  have hv : (v.ValidateBasic env = .failure 30 e ↔
      v.Commission ≠ none ∧ ∃ d, v.Description = some d ∧ env.EnsureLength d = .error e) ∧
    (v.ValidateBasic env = .failure 42 e ↔
      v.Commission ≠ none ∧ (∃ d d', v.Description = some d ∧ env.EnsureLength d = .ok d') ∧
      v.BabylonPk ≠ none ∧ v.BtcPk ≠ none ∧ v.Pop ≠ none ∧
      env.AccAddressFromBech32 v.Signer = .error e) ∧
    (v.ValidateBasic env = .failure 45 e ↔
      v.Commission ≠ none ∧ (∃ d d', v.Description = some d ∧ env.EnsureLength d = .ok d') ∧
      v.BabylonPk ≠ none ∧ v.BtcPk ≠ none ∧
      (∃ a, env.AccAddressFromBech32 v.Signer = .ok a) ∧
      ∃ pop, v.Pop = some pop ∧ env.PopValidateBasic pop = some e) := by
    rcases hc : v.Commission with _ | c
    · simp [MsgCreateBTCValidator.ValidateBasic, *]
    rcases hd : v.Description with _ | d
    · simp [MsgCreateBTCValidator.ValidateBasic, *]
    rcases he : env.EnsureLength d with e' | d'
    · simp [MsgCreateBTCValidator.ValidateBasic, *]
    rcases hb : v.BabylonPk with _ | b
    · simp [MsgCreateBTCValidator.ValidateBasic, *]
    rcases hk : v.BtcPk with _ | k
    · simp [MsgCreateBTCValidator.ValidateBasic, *]
    rcases hp : v.Pop with _ | pop
    · simp [MsgCreateBTCValidator.ValidateBasic, *]
    rcases ha : env.AccAddressFromBech32 v.Signer with e' | a
    · simp [MsgCreateBTCValidator.ValidateBasic, *]
    rcases hpv : env.PopValidateBasic pop with _ | e'
    · simp [MsgCreateBTCValidator.ValidateBasic, *]
    · simp [MsgCreateBTCValidator.ValidateBasic, *]
  refine ⟨hv.1, hv.2.1, hv.2.2, ?_⟩
  rcases hb : m.BabylonPk with _ | b
  · simp [MsgCreateBTCDelegation.ValidateBasic, *]
  rcases hp : m.Pop with _ | p
  · simp [MsgCreateBTCDelegation.ValidateBasic, *]
  rcases hk : m.BtcPk with _ | k
  · simp [MsgCreateBTCDelegation.ValidateBasic, *]
  rcases hs : m.StakingTx with _ | s
  · simp [MsgCreateBTCDelegation.ValidateBasic, *]
  rcases hl : m.SlashingTx with _ | l
  · simp [MsgCreateBTCDelegation.ValidateBasic, *]
  rcases hd : m.DelegatorSlashingSig with _ | d
  · simp [MsgCreateBTCDelegation.ValidateBasic, *]
  rcases ha : env.AccAddressFromBech32 m.Signer with e' | a
  · simp [MsgCreateBTCDelegation.ValidateBasic, *]
  by_cases ht : 65535 < m.StakingTime.val
  · simp [MsgCreateBTCDelegation.ValidateBasic, MaxUint16, Error.Wrapf, *]
  have ht' : m.StakingTime.val ≤ 65535 := by omega
  by_cases hn : m.ValBtcPkList.len = 0
  · simp [MsgCreateBTCDelegation.ValidateBasic, MaxUint16, *]
  by_cases hx : ExistsDup m.ValBtcPkList = true
  · simp [MsgCreateBTCDelegation.ValidateBasic, MaxUint16, *]
  rcases hsv : env.StakingTxValidateBasic s with _ | e'
  swap
  · simp [MsgCreateBTCDelegation.ValidateBasic, MaxUint16, *]
  rcases hpv : env.PopValidateBasic p with _ | e'
  swap
  · simp [MsgCreateBTCDelegation.ValidateBasic, MaxUint16, *]
  rcases hu : m.UnbondingTx with _ | u
  · simp [MsgCreateBTCDelegation.ValidateBasic, MaxUint16, *]
  rcases hv : m.UnbondingSlashingTx with _ | v
  · simp [MsgCreateBTCDelegation.ValidateBasic, MaxUint16, *]
  rcases hw : m.DelegatorUnbondingSlashingSig with _ | w
  · simp [MsgCreateBTCDelegation.ValidateBasic, MaxUint16, *]
  rcases hdec : env.NewBTCTxFromBytes (Slice.elems (some u)) with e' | tx
  · simp [MsgCreateBTCDelegation.ValidateBasic, MaxUint16, *]
  rcases hst : env.IsSimpleTransfer tx with _ | e'
  swap
  · simp [MsgCreateBTCDelegation.ValidateBasic, MaxUint16, *]
  by_cases hut : 65535 < m.UnbondingTime.val
  · simp [MsgCreateBTCDelegation.ValidateBasic, MaxUint16, uint64_of_uint32, *]
  · simp [MsgCreateBTCDelegation.ValidateBasic, MaxUint16, uint64_of_uint32, *]

/-- Instance of C11: a valid registration and a valid delegation request with
collaborators that reject everything; the first delegated check reports. -/
theorem collaborator_error_unchanged_witness :
    goodValidator.ValidateBasic rejectAll = .failure 30 (.errorf "invalid moniker length") ∧
    goodDelegation.ValidateBasic rejectAll = .failure 71 (.errorf "decoding bech32 failed") :=
  ⟨(collaborator_error_unchanged rejectAll goodValidator goodDelegation
      (.errorf "invalid moniker length")).1.mpr ⟨by decide, _, rfl, rfl⟩,
    (collaborator_error_unchanged rejectAll goodValidator goodDelegation
      (.errorf "decoding bech32 failed")).2.2.2.1.mpr
      ⟨by decide, by decide, by decide, by decide, by decide, by decide, rfl⟩⟩

/-! ## Acceptance -/

theorem delegation_success_iff_checks (env : Collaborators) (m : MsgCreateBTCDelegation) :
    m.ValidateBasic env = .success ↔
      m.BabylonPk ≠ none ∧ m.BtcPk ≠ none ∧ m.SlashingTx ≠ none ∧
      m.DelegatorSlashingSig ≠ none ∧ m.UnbondingTx ≠ none ∧ m.UnbondingSlashingTx ≠ none ∧
      m.DelegatorUnbondingSlashingSig ≠ none ∧
      (∃ a, env.AccAddressFromBech32 m.Signer = .ok a) ∧
      m.StakingTime.val ≤ 65535 ∧ m.UnbondingTime.val ≤ 65535 ∧
      m.ValBtcPkList.len ≠ 0 ∧ ExistsDup m.ValBtcPkList = false ∧
      (∃ s, m.StakingTx = some s ∧ env.StakingTxValidateBasic s = none) ∧
      (∃ pop, m.Pop = some pop ∧ env.PopValidateBasic pop = none) ∧
      (∃ tx, env.NewBTCTxFromBytes m.UnbondingTx.elems = .ok tx ∧
        env.IsSimpleTransfer tx = none) := by
  rcases hb : m.BabylonPk with _ | b
  · simp [MsgCreateBTCDelegation.ValidateBasic, *]
  rcases hp : m.Pop with _ | p
  · simp [MsgCreateBTCDelegation.ValidateBasic, *]
  rcases hk : m.BtcPk with _ | k
  · simp [MsgCreateBTCDelegation.ValidateBasic, *]
  rcases hs : m.StakingTx with _ | s
  · simp [MsgCreateBTCDelegation.ValidateBasic, *]
  rcases hl : m.SlashingTx with _ | l
  · simp [MsgCreateBTCDelegation.ValidateBasic, *]
  rcases hd : m.DelegatorSlashingSig with _ | d
  · simp [MsgCreateBTCDelegation.ValidateBasic, *]
  rcases ha : env.AccAddressFromBech32 m.Signer with e' | a
  · simp [MsgCreateBTCDelegation.ValidateBasic, *]
  by_cases ht : 65535 < m.StakingTime.val
  · simp [MsgCreateBTCDelegation.ValidateBasic, MaxUint16, Error.Wrapf, *]
  have ht' : m.StakingTime.val ≤ 65535 := by omega
  by_cases hn : m.ValBtcPkList.len = 0
  · simp [MsgCreateBTCDelegation.ValidateBasic, MaxUint16, *]
  by_cases hx : ExistsDup m.ValBtcPkList = true
  · simp [MsgCreateBTCDelegation.ValidateBasic, MaxUint16, *]
  rcases hsv : env.StakingTxValidateBasic s with _ | e'
  swap
  · simp [MsgCreateBTCDelegation.ValidateBasic, MaxUint16, *]
  rcases hpv : env.PopValidateBasic p with _ | e'
  swap
  · simp [MsgCreateBTCDelegation.ValidateBasic, MaxUint16, *]
  rcases hu : m.UnbondingTx with _ | u
  · simp [MsgCreateBTCDelegation.ValidateBasic, MaxUint16, *]
  rcases hv : m.UnbondingSlashingTx with _ | v
  · simp [MsgCreateBTCDelegation.ValidateBasic, MaxUint16, *]
  rcases hw : m.DelegatorUnbondingSlashingSig with _ | w
  · simp [MsgCreateBTCDelegation.ValidateBasic, MaxUint16, *]
  rcases hdec : env.NewBTCTxFromBytes (Slice.elems (some u)) with e' | tx
  · simp [MsgCreateBTCDelegation.ValidateBasic, MaxUint16, *]
  rcases hst : env.IsSimpleTransfer tx with _ | e'
  swap
  · simp [MsgCreateBTCDelegation.ValidateBasic, MaxUint16, *]
  by_cases hut : 65535 < m.UnbondingTime.val
  · simp [MsgCreateBTCDelegation.ValidateBasic, MaxUint16, uint64_of_uint32, Error.Wrapf, *]
  have hut' : m.UnbondingTime.val ≤ 65535 := by omega
  simp [MsgCreateBTCDelegation.ValidateBasic, MaxUint16, uint64_of_uint32, *]

/-- C12: `MsgCreateBTCDelegation.ValidateBasic` returns success exactly when
every invariant of the data model holds of the message: the nine reference
fields are present, Signer parses, StakingTime and UnbondingTime are at most
65535, ValBtcPkList is non-empty and no key stands at two positions of it, the
StakingTx and Pop self-checks succeed, and UnbondingTx decodes to a
transaction that the simple-transfer classifier accepts. -/
theorem delegation_success_iff_invariants (env : Collaborators)
    (m : MsgCreateBTCDelegation) :
    m.ValidateBasic env = .success ↔
      m.BabylonPk ≠ none ∧ m.Pop ≠ none ∧ m.BtcPk ≠ none ∧ m.StakingTx ≠ none ∧
      m.SlashingTx ≠ none ∧ m.DelegatorSlashingSig ≠ none ∧ m.UnbondingTx ≠ none ∧
      m.UnbondingSlashingTx ≠ none ∧ m.DelegatorUnbondingSlashingSig ≠ none ∧
      (∃ a, env.AccAddressFromBech32 m.Signer = .ok a) ∧
      m.StakingTime.val ≤ 65535 ∧ m.UnbondingTime.val ≤ 65535 ∧
      m.ValBtcPkList.len ≠ 0 ∧
      (∀ i j : Nat, i < j → j < m.ValBtcPkList.len →
        m.ValBtcPkList.elems[i]? ≠ m.ValBtcPkList.elems[j]?) ∧
      (∀ s, m.StakingTx = some s → env.StakingTxValidateBasic s = none) ∧
      (∀ pop, m.Pop = some pop → env.PopValidateBasic pop = none) ∧
      (∃ tx, env.NewBTCTxFromBytes m.UnbondingTx.elems = .ok tx ∧
        env.IsSimpleTransfer tx = none) := by
  have hlen : m.ValBtcPkList.len = m.ValBtcPkList.elems.length := by
    cases m.ValBtcPkList <;> rfl
  have hdup : ExistsDup m.ValBtcPkList = false ↔
      ∀ i j : Nat, i < j → j < m.ValBtcPkList.len →
        m.ValBtcPkList.elems[i]? ≠ m.ValBtcPkList.elems[j]? := by
    rw [ExistsDup, Bool.eq_false_iff, Ne, ExistsDupList_iff_positions, hlen]
    push_neg
    rfl
  rw [delegation_success_iff_checks, hdup]
  constructor
  · rintro ⟨h1, h2, h3, h4, h5, h6, h7, h8, h9, h10, h11, h12, ⟨s, hs, hsv⟩, ⟨p, hp, hpv⟩, h15⟩
    refine ⟨h1, by simp [hp], h2, by simp [hs], h3, h4, h5, h6, h7, h8, h9, h10, h11, h12,
      ?_, ?_, h15⟩
    · intro s' hs'
      rw [hs] at hs'
      cases hs'
      exact hsv
    · intro p' hp'
      rw [hp] at hp'
      cases hp'
      exact hpv
  · rintro ⟨h1, hP, h2, hS, h3, h4, h5, h6, h7, h8, h9, h10, h11, h12, h13, h14, h15⟩
    obtain ⟨s, hs⟩ := Option.ne_none_iff_exists'.mp hS
    obtain ⟨p, hp⟩ := Option.ne_none_iff_exists'.mp hP
    exact ⟨h1, h2, h3, h4, h5, h6, h7, h8, h9, h10, h11, h12, ⟨s, hs, h13 s hs⟩,
      ⟨p, hp, h14 p hp⟩, h15⟩

/-- Instance of C12 at `goodDelegation` with collaborators that accept
everything. -/
theorem delegation_success_iff_invariants_witness :
    goodDelegation.ValidateBasic acceptAll = .success :=
  (delegation_success_iff_invariants acceptAll goodDelegation).mpr
    ⟨by decide, by decide, by decide, by decide, by decide, by decide, by decide, by decide,
      by decide, ⟨[], rfl⟩, by decide, by decide, by decide,
      fun i j hij hj => List.nodup_iff_getElem?_ne_getElem?.mp
        (by decide : goodDelegation.ValBtcPkList.elems.Nodup) i j hij hj,
      fun _ _ => rfl, fun _ _ => rfl, ⟨_, rfl, rfl⟩⟩

/-! ## Local checks and collaborator checks -/

set_option linter.unusedTactic false
set_option linter.unreachableTactic false

theorem delegation_local_or_earlier_collaborator (env : Collaborators)
    (m : MsgCreateBTCDelegation) (c : DelegationLocalCheck) (hviol : m.violates c = true) :
    ((∃ c', m.violates c' = true ∧ c'.line ≤ c.line ∧
        m.ValidateBasic env = .failure c'.line (c'.error m)) ∨
      (∃ l e, l ∈ delegationCollaboratorLines ∧ l < c.line ∧
        m.ValidateBasic env = .failure l e)) ∧
    ((71 < c.line → ∃ a, env.AccAddressFromBech32 m.Signer = .ok a) ∧
      (89 < c.line → ∀ s, m.StakingTx = some s → env.StakingTxValidateBasic s = none) ∧
      (92 < c.line → ∀ pop, m.Pop = some pop → env.PopValidateBasic pop = none) ∧
      (107 < c.line → ∃ tx, env.NewBTCTxFromBytes m.UnbondingTx.elems = .ok tx ∧
        env.IsSimpleTransfer tx = none) →
      ∃ c', m.violates c' = true ∧ c'.line ≤ c.line ∧
        m.ValidateBasic env = .failure c'.line (c'.error m)) := by
  rcases hb : m.BabylonPk with _ | b
  · have hA : ∃ c', m.violates c' = true ∧ c'.line ≤ c.line ∧
        m.ValidateBasic env = .failure c'.line (c'.error m) := by
      refine ⟨.field .BabylonPk, ?_, ?_, ?_⟩
      · simp [MsgCreateBTCDelegation.violates, MsgCreateBTCDelegation.absent, *]
      · rcases c with F | _ | _ | _ | _
        · cases F <;>
            (simp_all [MsgCreateBTCDelegation.violates, MsgCreateBTCDelegation.absent,
              DelegationLocalCheck.line, DelegationField.line]) <;> omega
        all_goals
          (simp_all [MsgCreateBTCDelegation.violates, MsgCreateBTCDelegation.absent,
            DelegationLocalCheck.line, DelegationField.line]) <;> omega
      · simp [MsgCreateBTCDelegation.ValidateBasic, DelegationLocalCheck.line,
          DelegationLocalCheck.error, DelegationField.line,
          DelegationField.missingFieldError, stakingTimeError, unbondingTimeError,
          MaxUint16, uint64_of_uint32, *]
    exact ⟨Or.inl hA, fun _ => hA⟩
  rcases hp : m.Pop with _ | p
  · have hA : ∃ c', m.violates c' = true ∧ c'.line ≤ c.line ∧
        m.ValidateBasic env = .failure c'.line (c'.error m) := by
      refine ⟨.field .Pop, ?_, ?_, ?_⟩
      · simp [MsgCreateBTCDelegation.violates, MsgCreateBTCDelegation.absent, *]
      · rcases c with F | _ | _ | _ | _
        · cases F <;>
            (simp_all [MsgCreateBTCDelegation.violates, MsgCreateBTCDelegation.absent,
              DelegationLocalCheck.line, DelegationField.line]) <;> omega
        all_goals
          (simp_all [MsgCreateBTCDelegation.violates, MsgCreateBTCDelegation.absent,
            DelegationLocalCheck.line, DelegationField.line]) <;> omega
      · simp [MsgCreateBTCDelegation.ValidateBasic, DelegationLocalCheck.line,
          DelegationLocalCheck.error, DelegationField.line,
          DelegationField.missingFieldError, stakingTimeError, unbondingTimeError,
          MaxUint16, uint64_of_uint32, *]
    exact ⟨Or.inl hA, fun _ => hA⟩
  rcases hk : m.BtcPk with _ | k
  · have hA : ∃ c', m.violates c' = true ∧ c'.line ≤ c.line ∧
        m.ValidateBasic env = .failure c'.line (c'.error m) := by
      refine ⟨.field .BtcPk, ?_, ?_, ?_⟩
      · simp [MsgCreateBTCDelegation.violates, MsgCreateBTCDelegation.absent, *]
      · rcases c with F | _ | _ | _ | _
        · cases F <;>
            (simp_all [MsgCreateBTCDelegation.violates, MsgCreateBTCDelegation.absent,
              DelegationLocalCheck.line, DelegationField.line]) <;> omega
        all_goals
          (simp_all [MsgCreateBTCDelegation.violates, MsgCreateBTCDelegation.absent,
            DelegationLocalCheck.line, DelegationField.line]) <;> omega
      · simp [MsgCreateBTCDelegation.ValidateBasic, DelegationLocalCheck.line,
          DelegationLocalCheck.error, DelegationField.line,
          DelegationField.missingFieldError, stakingTimeError, unbondingTimeError,
          MaxUint16, uint64_of_uint32, *]
    exact ⟨Or.inl hA, fun _ => hA⟩
  rcases hs : m.StakingTx with _ | s
  · have hA : ∃ c', m.violates c' = true ∧ c'.line ≤ c.line ∧
        m.ValidateBasic env = .failure c'.line (c'.error m) := by
      refine ⟨.field .StakingTx, ?_, ?_, ?_⟩
      · simp [MsgCreateBTCDelegation.violates, MsgCreateBTCDelegation.absent, *]
      · rcases c with F | _ | _ | _ | _
        · cases F <;>
            (simp_all [MsgCreateBTCDelegation.violates, MsgCreateBTCDelegation.absent,
              DelegationLocalCheck.line, DelegationField.line]) <;> omega
        all_goals
          (simp_all [MsgCreateBTCDelegation.violates, MsgCreateBTCDelegation.absent,
            DelegationLocalCheck.line, DelegationField.line]) <;> omega
      · simp [MsgCreateBTCDelegation.ValidateBasic, DelegationLocalCheck.line,
          DelegationLocalCheck.error, DelegationField.line,
          DelegationField.missingFieldError, stakingTimeError, unbondingTimeError,
          MaxUint16, uint64_of_uint32, *]
    exact ⟨Or.inl hA, fun _ => hA⟩
  rcases hl : m.SlashingTx with _ | l
  · have hA : ∃ c', m.violates c' = true ∧ c'.line ≤ c.line ∧
        m.ValidateBasic env = .failure c'.line (c'.error m) := by
      refine ⟨.field .SlashingTx, ?_, ?_, ?_⟩
      · simp [MsgCreateBTCDelegation.violates, MsgCreateBTCDelegation.absent, *]
      · rcases c with F | _ | _ | _ | _
        · cases F <;>
            (simp_all [MsgCreateBTCDelegation.violates, MsgCreateBTCDelegation.absent,
              DelegationLocalCheck.line, DelegationField.line]) <;> omega
        all_goals
          (simp_all [MsgCreateBTCDelegation.violates, MsgCreateBTCDelegation.absent,
            DelegationLocalCheck.line, DelegationField.line]) <;> omega
      · simp [MsgCreateBTCDelegation.ValidateBasic, DelegationLocalCheck.line,
          DelegationLocalCheck.error, DelegationField.line,
          DelegationField.missingFieldError, stakingTimeError, unbondingTimeError,
          MaxUint16, uint64_of_uint32, *]
    exact ⟨Or.inl hA, fun _ => hA⟩
  rcases hd : m.DelegatorSlashingSig with _ | d
  · have hA : ∃ c', m.violates c' = true ∧ c'.line ≤ c.line ∧
        m.ValidateBasic env = .failure c'.line (c'.error m) := by
      refine ⟨.field .DelegatorSlashingSig, ?_, ?_, ?_⟩
      · simp [MsgCreateBTCDelegation.violates, MsgCreateBTCDelegation.absent, *]
      · rcases c with F | _ | _ | _ | _
        · cases F <;>
            (simp_all [MsgCreateBTCDelegation.violates, MsgCreateBTCDelegation.absent,
              DelegationLocalCheck.line, DelegationField.line]) <;> omega
        all_goals
          (simp_all [MsgCreateBTCDelegation.violates, MsgCreateBTCDelegation.absent,
            DelegationLocalCheck.line, DelegationField.line]) <;> omega
      · simp [MsgCreateBTCDelegation.ValidateBasic, DelegationLocalCheck.line,
          DelegationLocalCheck.error, DelegationField.line,
          DelegationField.missingFieldError, stakingTimeError, unbondingTimeError,
          MaxUint16, uint64_of_uint32, *]
    exact ⟨Or.inl hA, fun _ => hA⟩
  rcases ha : env.AccAddressFromBech32 m.Signer with e' | a
  · refine ⟨Or.inr ⟨71, e', by simp [delegationCollaboratorLines], ?_, ?_⟩, ?_⟩
    · rcases c with F | _ | _ | _ | _
      · cases F <;>
          (simp_all [MsgCreateBTCDelegation.violates, MsgCreateBTCDelegation.absent,
            DelegationLocalCheck.line, DelegationField.line]) <;> omega
      all_goals
        (simp_all [MsgCreateBTCDelegation.violates, MsgCreateBTCDelegation.absent,
          DelegationLocalCheck.line, DelegationField.line]) <;> omega
    · simp [MsgCreateBTCDelegation.ValidateBasic, MaxUint16, uint64_of_uint32, *]
    · intro hacc
      exfalso
      rcases c with F | _ | _ | _ | _
      · cases F <;>
          (simp_all [MsgCreateBTCDelegation.violates, MsgCreateBTCDelegation.absent,
            DelegationLocalCheck.line, DelegationField.line]) <;> omega
      all_goals
        (simp_all [MsgCreateBTCDelegation.violates, MsgCreateBTCDelegation.absent,
          DelegationLocalCheck.line, DelegationField.line]) <;> omega
  by_cases ht : 65535 < m.StakingTime.val
  · have hA : ∃ c', m.violates c' = true ∧ c'.line ≤ c.line ∧
        m.ValidateBasic env = .failure c'.line (c'.error m) := by
      refine ⟨.stakingTime, ?_, ?_, ?_⟩
      · simp [MsgCreateBTCDelegation.violates, MsgCreateBTCDelegation.absent, *]
      · rcases c with F | _ | _ | _ | _
        · cases F <;>
            (simp_all [MsgCreateBTCDelegation.violates, MsgCreateBTCDelegation.absent,
              DelegationLocalCheck.line, DelegationField.line]) <;> omega
        all_goals
          (simp_all [MsgCreateBTCDelegation.violates, MsgCreateBTCDelegation.absent,
            DelegationLocalCheck.line, DelegationField.line]) <;> omega
      · simp [MsgCreateBTCDelegation.ValidateBasic, DelegationLocalCheck.line,
          DelegationLocalCheck.error, DelegationField.line,
          DelegationField.missingFieldError, stakingTimeError, unbondingTimeError,
          MaxUint16, uint64_of_uint32, *]
    exact ⟨Or.inl hA, fun _ => hA⟩
  by_cases hn : m.ValBtcPkList.len = 0
  · have hA : ∃ c', m.violates c' = true ∧ c'.line ≤ c.line ∧
        m.ValidateBasic env = .failure c'.line (c'.error m) := by
      refine ⟨.validatorListEmpty, ?_, ?_, ?_⟩
      · simp [MsgCreateBTCDelegation.violates, MsgCreateBTCDelegation.absent, *]
      · rcases c with F | _ | _ | _ | _
        · cases F <;>
            (simp_all [MsgCreateBTCDelegation.violates, MsgCreateBTCDelegation.absent,
              DelegationLocalCheck.line, DelegationField.line]) <;> omega
        all_goals
          (simp_all [MsgCreateBTCDelegation.violates, MsgCreateBTCDelegation.absent,
            DelegationLocalCheck.line, DelegationField.line]) <;> omega
      · simp [MsgCreateBTCDelegation.ValidateBasic, DelegationLocalCheck.line,
          DelegationLocalCheck.error, DelegationField.line,
          DelegationField.missingFieldError, stakingTimeError, unbondingTimeError,
          MaxUint16, uint64_of_uint32, *]
    exact ⟨Or.inl hA, fun _ => hA⟩
  by_cases hx : ExistsDup m.ValBtcPkList = true
  · have hA : ∃ c', m.violates c' = true ∧ c'.line ≤ c.line ∧
        m.ValidateBasic env = .failure c'.line (c'.error m) := by
      refine ⟨.validatorListDuplicated, ?_, ?_, ?_⟩
      · simp [MsgCreateBTCDelegation.violates, MsgCreateBTCDelegation.absent, *]
      · rcases c with F | _ | _ | _ | _
        · cases F <;>
            (simp_all [MsgCreateBTCDelegation.violates, MsgCreateBTCDelegation.absent,
              DelegationLocalCheck.line, DelegationField.line]) <;> omega
        all_goals
          (simp_all [MsgCreateBTCDelegation.violates, MsgCreateBTCDelegation.absent,
            DelegationLocalCheck.line, DelegationField.line]) <;> omega
      · simp [MsgCreateBTCDelegation.ValidateBasic, DelegationLocalCheck.line,
          DelegationLocalCheck.error, DelegationField.line,
          DelegationField.missingFieldError, stakingTimeError, unbondingTimeError,
          MaxUint16, uint64_of_uint32, *]
    exact ⟨Or.inl hA, fun _ => hA⟩
  rcases hsv : env.StakingTxValidateBasic s with _ | e'
  swap
  · refine ⟨Or.inr ⟨89, e', by simp [delegationCollaboratorLines], ?_, ?_⟩, ?_⟩
    · rcases c with F | _ | _ | _ | _
      · cases F <;>
          (simp_all [MsgCreateBTCDelegation.violates, MsgCreateBTCDelegation.absent,
            DelegationLocalCheck.line, DelegationField.line]) <;> omega
      all_goals
        (simp_all [MsgCreateBTCDelegation.violates, MsgCreateBTCDelegation.absent,
          DelegationLocalCheck.line, DelegationField.line]) <;> omega
    · simp [MsgCreateBTCDelegation.ValidateBasic, MaxUint16, uint64_of_uint32, *]
    · intro hacc
      exfalso
      rcases c with F | _ | _ | _ | _
      · cases F <;>
          (simp_all [MsgCreateBTCDelegation.violates, MsgCreateBTCDelegation.absent,
            DelegationLocalCheck.line, DelegationField.line]) <;> omega
      all_goals
        (simp_all [MsgCreateBTCDelegation.violates, MsgCreateBTCDelegation.absent,
          DelegationLocalCheck.line, DelegationField.line]) <;> omega
  rcases hpv : env.PopValidateBasic p with _ | e'
  swap
  · refine ⟨Or.inr ⟨92, e', by simp [delegationCollaboratorLines], ?_, ?_⟩, ?_⟩
    · rcases c with F | _ | _ | _ | _
      · cases F <;>
          (simp_all [MsgCreateBTCDelegation.violates, MsgCreateBTCDelegation.absent,
            DelegationLocalCheck.line, DelegationField.line]) <;> omega
      all_goals
        (simp_all [MsgCreateBTCDelegation.violates, MsgCreateBTCDelegation.absent,
          DelegationLocalCheck.line, DelegationField.line]) <;> omega
    · simp [MsgCreateBTCDelegation.ValidateBasic, MaxUint16, uint64_of_uint32, *]
    · intro hacc
      exfalso
      rcases c with F | _ | _ | _ | _
      · cases F <;>
          (simp_all [MsgCreateBTCDelegation.violates, MsgCreateBTCDelegation.absent,
            DelegationLocalCheck.line, DelegationField.line]) <;> omega
      all_goals
        (simp_all [MsgCreateBTCDelegation.violates, MsgCreateBTCDelegation.absent,
          DelegationLocalCheck.line, DelegationField.line]) <;> omega
  rcases hu : m.UnbondingTx with _ | u
  · have hA : ∃ c', m.violates c' = true ∧ c'.line ≤ c.line ∧
        m.ValidateBasic env = .failure c'.line (c'.error m) := by
      refine ⟨.field .UnbondingTx, ?_, ?_, ?_⟩
      · simp [MsgCreateBTCDelegation.violates, MsgCreateBTCDelegation.absent, *]
      · rcases c with F | _ | _ | _ | _
        · cases F <;>
            (simp_all [MsgCreateBTCDelegation.violates, MsgCreateBTCDelegation.absent,
              DelegationLocalCheck.line, DelegationField.line]) <;> omega
        all_goals
          (simp_all [MsgCreateBTCDelegation.violates, MsgCreateBTCDelegation.absent,
            DelegationLocalCheck.line, DelegationField.line]) <;> omega
      · simp [MsgCreateBTCDelegation.ValidateBasic, DelegationLocalCheck.line,
          DelegationLocalCheck.error, DelegationField.line,
          DelegationField.missingFieldError, stakingTimeError, unbondingTimeError,
          MaxUint16, uint64_of_uint32, *]
    exact ⟨Or.inl hA, fun _ => hA⟩
  rcases hv : m.UnbondingSlashingTx with _ | v
  · have hA : ∃ c', m.violates c' = true ∧ c'.line ≤ c.line ∧
        m.ValidateBasic env = .failure c'.line (c'.error m) := by
      refine ⟨.field .UnbondingSlashingTx, ?_, ?_, ?_⟩
      · simp [MsgCreateBTCDelegation.violates, MsgCreateBTCDelegation.absent, *]
      · rcases c with F | _ | _ | _ | _
        · cases F <;>
            (simp_all [MsgCreateBTCDelegation.violates, MsgCreateBTCDelegation.absent,
              DelegationLocalCheck.line, DelegationField.line]) <;> omega
        all_goals
          (simp_all [MsgCreateBTCDelegation.violates, MsgCreateBTCDelegation.absent,
            DelegationLocalCheck.line, DelegationField.line]) <;> omega
      · simp [MsgCreateBTCDelegation.ValidateBasic, DelegationLocalCheck.line,
          DelegationLocalCheck.error, DelegationField.line,
          DelegationField.missingFieldError, stakingTimeError, unbondingTimeError,
          MaxUint16, uint64_of_uint32, *]
    exact ⟨Or.inl hA, fun _ => hA⟩
  rcases hw : m.DelegatorUnbondingSlashingSig with _ | w
  · have hA : ∃ c', m.violates c' = true ∧ c'.line ≤ c.line ∧
        m.ValidateBasic env = .failure c'.line (c'.error m) := by
      refine ⟨.field .DelegatorUnbondingSlashingSig, ?_, ?_, ?_⟩
      · simp [MsgCreateBTCDelegation.violates, MsgCreateBTCDelegation.absent, *]
      · rcases c with F | _ | _ | _ | _
        · cases F <;>
            (simp_all [MsgCreateBTCDelegation.violates, MsgCreateBTCDelegation.absent,
              DelegationLocalCheck.line, DelegationField.line]) <;> omega
        all_goals
          (simp_all [MsgCreateBTCDelegation.violates, MsgCreateBTCDelegation.absent,
            DelegationLocalCheck.line, DelegationField.line]) <;> omega
      · simp [MsgCreateBTCDelegation.ValidateBasic, DelegationLocalCheck.line,
          DelegationLocalCheck.error, DelegationField.line,
          DelegationField.missingFieldError, stakingTimeError, unbondingTimeError,
          MaxUint16, uint64_of_uint32, *]
    exact ⟨Or.inl hA, fun _ => hA⟩
  rcases hdec : env.NewBTCTxFromBytes (Slice.elems (some u)) with e' | tx
  · refine ⟨Or.inr ⟨107, e', by simp [delegationCollaboratorLines], ?_, ?_⟩, ?_⟩
    · rcases c with F | _ | _ | _ | _
      · cases F <;>
          (simp_all [MsgCreateBTCDelegation.violates, MsgCreateBTCDelegation.absent,
            DelegationLocalCheck.line, DelegationField.line]) <;> omega
      all_goals
        (simp_all [MsgCreateBTCDelegation.violates, MsgCreateBTCDelegation.absent,
          DelegationLocalCheck.line, DelegationField.line]) <;> omega
    · simp [MsgCreateBTCDelegation.ValidateBasic, MaxUint16, uint64_of_uint32, *]
    · intro hacc
      exfalso
      rcases c with F | _ | _ | _ | _
      · cases F <;>
          (simp_all [MsgCreateBTCDelegation.violates, MsgCreateBTCDelegation.absent,
            DelegationLocalCheck.line, DelegationField.line]) <;> omega
      all_goals
        (simp_all [MsgCreateBTCDelegation.violates, MsgCreateBTCDelegation.absent,
          DelegationLocalCheck.line, DelegationField.line]) <;> omega
  rcases hst : env.IsSimpleTransfer tx with _ | e'
  swap
  · refine ⟨Or.inr ⟨110, e', by simp [delegationCollaboratorLines], ?_, ?_⟩, ?_⟩
    · rcases c with F | _ | _ | _ | _
      · cases F <;>
          (simp_all [MsgCreateBTCDelegation.violates, MsgCreateBTCDelegation.absent,
            DelegationLocalCheck.line, DelegationField.line]) <;> omega
      all_goals
        (simp_all [MsgCreateBTCDelegation.violates, MsgCreateBTCDelegation.absent,
          DelegationLocalCheck.line, DelegationField.line]) <;> omega
    · simp [MsgCreateBTCDelegation.ValidateBasic, MaxUint16, uint64_of_uint32, *]
    · intro hacc
      exfalso
      rcases c with F | _ | _ | _ | _
      · cases F <;>
          (simp_all [MsgCreateBTCDelegation.violates, MsgCreateBTCDelegation.absent,
            DelegationLocalCheck.line, DelegationField.line]) <;> omega
      all_goals
        (simp_all [MsgCreateBTCDelegation.violates, MsgCreateBTCDelegation.absent,
          DelegationLocalCheck.line, DelegationField.line]) <;> omega
  by_cases hut : 65535 < m.UnbondingTime.val
  · have hA : ∃ c', m.violates c' = true ∧ c'.line ≤ c.line ∧
        m.ValidateBasic env = .failure c'.line (c'.error m) := by
      refine ⟨.unbondingTime, ?_, ?_, ?_⟩
      · simp [MsgCreateBTCDelegation.violates, MsgCreateBTCDelegation.absent, *]
      · rcases c with F | _ | _ | _ | _
        · cases F <;>
            (simp_all [MsgCreateBTCDelegation.violates, MsgCreateBTCDelegation.absent,
              DelegationLocalCheck.line, DelegationField.line]) <;> omega
        all_goals
          (simp_all [MsgCreateBTCDelegation.violates, MsgCreateBTCDelegation.absent,
            DelegationLocalCheck.line, DelegationField.line]) <;> omega
      · simp [MsgCreateBTCDelegation.ValidateBasic, DelegationLocalCheck.line,
          DelegationLocalCheck.error, DelegationField.line,
          DelegationField.missingFieldError, stakingTimeError, unbondingTimeError,
          MaxUint16, uint64_of_uint32, *]
    exact ⟨Or.inl hA, fun _ => hA⟩
  exfalso
  rcases c with F | _ | _ | _ | _
  · cases F <;>
      (simp_all [MsgCreateBTCDelegation.violates, MsgCreateBTCDelegation.absent,
        DelegationLocalCheck.line, DelegationField.line]) <;> omega
  all_goals
    (simp_all [MsgCreateBTCDelegation.violates, MsgCreateBTCDelegation.absent,
      DelegationLocalCheck.line, DelegationField.line]) <;> omega

theorem violated_check_after_step1 (m : MsgCreateBTCDelegation) (c : DelegationLocalCheck)
    (hviol : m.violates c = true)
    (hBabylonPk : m.BabylonPk ≠ none) (hPop : m.Pop ≠ none) (hBtcPk : m.BtcPk ≠ none)
    (hStakingTx : m.StakingTx ≠ none) (hSlashingTx : m.SlashingTx ≠ none)
    (hSig : m.DelegatorSlashingSig ≠ none) : 71 < c.line := by
  rcases c with F | _ | _ | _ | _
  · cases F <;>
      (simp_all [MsgCreateBTCDelegation.violates, MsgCreateBTCDelegation.absent,
        DelegationLocalCheck.line, DelegationField.line]) <;> omega
  all_goals
    (simp_all [MsgCreateBTCDelegation.violates, MsgCreateBTCDelegation.absent,
      DelegationLocalCheck.line, DelegationField.line]) <;> omega

theorem violated_check_after_list (m : MsgCreateBTCDelegation) (c : DelegationLocalCheck)
    (hviol : m.violates c = true)
    (hBabylonPk : m.BabylonPk ≠ none) (hPop : m.Pop ≠ none) (hBtcPk : m.BtcPk ≠ none)
    (hStakingTx : m.StakingTx ≠ none) (hSlashingTx : m.SlashingTx ≠ none)
    (hSig : m.DelegatorSlashingSig ≠ none)
    (hTime : m.StakingTime.val ≤ 65535) (hNonEmpty : m.ValBtcPkList.len ≠ 0)
    (hNoDup : ExistsDup m.ValBtcPkList = false) : 92 < c.line := by
  rcases c with F | _ | _ | _ | _
  · cases F <;>
      (simp_all [MsgCreateBTCDelegation.violates, MsgCreateBTCDelegation.absent,
        DelegationLocalCheck.line, DelegationField.line]) <;> omega
  all_goals
    (simp_all [MsgCreateBTCDelegation.violates, MsgCreateBTCDelegation.absent,
      DelegationLocalCheck.line, DelegationField.line]) <;> omega

theorem violated_check_after_unbonding_fields (m : MsgCreateBTCDelegation)
    (c : DelegationLocalCheck) (hviol : m.violates c = true)
    (hBabylonPk : m.BabylonPk ≠ none) (hPop : m.Pop ≠ none) (hBtcPk : m.BtcPk ≠ none)
    (hStakingTx : m.StakingTx ≠ none) (hSlashingTx : m.SlashingTx ≠ none)
    (hSig : m.DelegatorSlashingSig ≠ none)
    (hTime : m.StakingTime.val ≤ 65535) (hNonEmpty : m.ValBtcPkList.len ≠ 0)
    (hNoDup : ExistsDup m.ValBtcPkList = false)
    (hUnbondingTx : m.UnbondingTx ≠ none)
    (hUnbondingSlashingTx : m.UnbondingSlashingTx ≠ none)
    (hUnbondingSig : m.DelegatorUnbondingSlashingSig ≠ none) : 110 < c.line := by
  rcases c with F | _ | _ | _ | _
  · cases F <;>
      (simp_all [MsgCreateBTCDelegation.violates, MsgCreateBTCDelegation.absent,
        DelegationLocalCheck.line, DelegationField.line]) <;> omega
  all_goals
    (simp_all [MsgCreateBTCDelegation.violates, MsgCreateBTCDelegation.absent,
      DelegationLocalCheck.line, DelegationField.line]) <;> omega

/-! ## Use of reference fields -/

theorem firstFailure_ne_nilDereference (cs : List CheckOutcome) :
    firstFailure cs ≠ .nilDereference := by
  induction cs with
  | nil => simp [firstFailure]
  | cons c cs ih =>
    rcases c with _ | ⟨l, e⟩
    · simpa [firstFailure] using ih
    · simp [firstFailure]

theorem validator_reaches_present (env : Collaborators) (v : MsgCreateBTCValidator) :
    (∀ l, (v.ValidateBasic env).line = some l → 30 ≤ l → v.Description ≠ none) ∧
    (∀ l, (v.ValidateBasic env).line = some l → 45 ≤ l → v.Pop ≠ none) ∧
    (v.ValidateBasic env = .success → v.Description ≠ none ∧ v.Pop ≠ none) := by
  rcases hc : v.Commission with _ | c
  · simp [MsgCreateBTCValidator.ValidateBasic, Result.line, *]
  rcases hd : v.Description with _ | d
  · simp [MsgCreateBTCValidator.ValidateBasic, Result.line, *]
  rcases he : env.EnsureLength d with e' | d'
  · simp [MsgCreateBTCValidator.ValidateBasic, Result.line, *]
  rcases hb : v.BabylonPk with _ | b
  · simp [MsgCreateBTCValidator.ValidateBasic, Result.line, *]
  rcases hk : v.BtcPk with _ | k
  · simp [MsgCreateBTCValidator.ValidateBasic, Result.line, *]
  rcases hp : v.Pop with _ | pop
  · simp [MsgCreateBTCValidator.ValidateBasic, Result.line, *]
  rcases ha : env.AccAddressFromBech32 v.Signer with e' | a
  · simp [MsgCreateBTCValidator.ValidateBasic, Result.line, *]
  rcases hpv : env.PopValidateBasic pop with _ | e'
  · simp [MsgCreateBTCValidator.ValidateBasic, Result.line, *]
  · simp [MsgCreateBTCValidator.ValidateBasic, Result.line, *]

theorem delegation_reaches_present (env : Collaborators) (m : MsgCreateBTCDelegation) :
    (∀ n, (m.ValidateBasic env).line = some n → 89 ≤ n → m.StakingTx ≠ none) ∧
    (∀ n, (m.ValidateBasic env).line = some n → 92 ≤ n → m.Pop ≠ none) ∧
    (∀ n, (m.ValidateBasic env).line = some n → 107 ≤ n → m.UnbondingTx ≠ none) ∧
    (m.ValidateBasic env = .success →
      m.StakingTx ≠ none ∧ m.Pop ≠ none ∧ m.UnbondingTx ≠ none) := by
  rcases hb : m.BabylonPk with _ | b
  · simp [MsgCreateBTCDelegation.ValidateBasic, Result.line, *]
  rcases hp : m.Pop with _ | p
  · simp [MsgCreateBTCDelegation.ValidateBasic, Result.line, *]
  rcases hk : m.BtcPk with _ | k
  · simp [MsgCreateBTCDelegation.ValidateBasic, Result.line, *]
  rcases hs : m.StakingTx with _ | s
  · simp [MsgCreateBTCDelegation.ValidateBasic, Result.line, *]
  rcases hl : m.SlashingTx with _ | l
  · simp [MsgCreateBTCDelegation.ValidateBasic, Result.line, *]
  rcases hd : m.DelegatorSlashingSig with _ | d
  · simp [MsgCreateBTCDelegation.ValidateBasic, Result.line, *]
  rcases ha : env.AccAddressFromBech32 m.Signer with e' | a
  · simp [MsgCreateBTCDelegation.ValidateBasic, Result.line, *]
  by_cases ht : 65535 < m.StakingTime.val
  · simp [MsgCreateBTCDelegation.ValidateBasic, Result.line, MaxUint16, Error.Wrapf, *]
  have ht' : m.StakingTime.val ≤ 65535 := by omega
  by_cases hn : m.ValBtcPkList.len = 0
  · simp [MsgCreateBTCDelegation.ValidateBasic, Result.line, MaxUint16, *]
  by_cases hx : ExistsDup m.ValBtcPkList = true
  · simp [MsgCreateBTCDelegation.ValidateBasic, Result.line, MaxUint16, *]
  rcases hsv : env.StakingTxValidateBasic s with _ | e'
  swap
  · simp [MsgCreateBTCDelegation.ValidateBasic, Result.line, MaxUint16, *]
  rcases hpv : env.PopValidateBasic p with _ | e'
  swap
  · simp [MsgCreateBTCDelegation.ValidateBasic, Result.line, MaxUint16, *]
  rcases hu : m.UnbondingTx with _ | u
  · simp [MsgCreateBTCDelegation.ValidateBasic, Result.line, MaxUint16, *]
  rcases hv : m.UnbondingSlashingTx with _ | v
  · simp [MsgCreateBTCDelegation.ValidateBasic, Result.line, MaxUint16, *]
  rcases hw : m.DelegatorUnbondingSlashingSig with _ | w
  · simp [MsgCreateBTCDelegation.ValidateBasic, Result.line, MaxUint16, *]
  rcases hdec : env.NewBTCTxFromBytes (Slice.elems (some u)) with e' | tx
  · simp [MsgCreateBTCDelegation.ValidateBasic, Result.line, MaxUint16, *]
  rcases hst : env.IsSimpleTransfer tx with _ | e'
  swap
  · simp [MsgCreateBTCDelegation.ValidateBasic, Result.line, MaxUint16, *]
  by_cases hut : 65535 < m.UnbondingTime.val
  · simp [MsgCreateBTCDelegation.ValidateBasic, Result.line, MaxUint16, uint64_of_uint32, Error.Wrapf, *]
  have hut' : m.UnbondingTime.val ≤ 65535 := by omega
  simp [MsgCreateBTCDelegation.ValidateBasic, Result.line, MaxUint16, uint64_of_uint32, *]

/-- C15: neither `MsgCreateBTCValidator.ValidateBasic` nor
`MsgCreateBTCDelegation.ValidateBasic` ever uses a reference field that is
absent: the nil-dereference outcome is not the result for any message and any
collaborators, so the result is always success or an error; and whenever
control reaches a call on a field (the result is success or an error of that
call or of a later line) the field is present: Description at
`EnsureLength` (line 29), Pop at `Pop.ValidateBasic` (lines 44 and 91),
StakingTx at `StakingTx.ValidateBasic` (line 88), UnbondingTx at the decoding
(line 105). -/
theorem no_absent_field_used (env : Collaborators) (v : MsgCreateBTCValidator)
    (m : MsgCreateBTCDelegation) :
    v.ValidateBasic env ≠ .nilDereference ∧
    m.ValidateBasic env ≠ .nilDereference ∧
    (v.ValidateBasic env = .success ∨ ∃ l e, v.ValidateBasic env = .failure l e) ∧
    (m.ValidateBasic env = .success ∨ ∃ l e, m.ValidateBasic env = .failure l e) ∧
    (∀ l, (v.ValidateBasic env).line = some l → 30 ≤ l → v.Description ≠ none) ∧
    (∀ l, (v.ValidateBasic env).line = some l → 45 ≤ l → v.Pop ≠ none) ∧
    (v.ValidateBasic env = .success → v.Description ≠ none ∧ v.Pop ≠ none) ∧
    (∀ l, (m.ValidateBasic env).line = some l → 89 ≤ l → m.StakingTx ≠ none) ∧
    (∀ l, (m.ValidateBasic env).line = some l → 92 ≤ l → m.Pop ≠ none) ∧
    (∀ l, (m.ValidateBasic env).line = some l → 107 ≤ l → m.UnbondingTx ≠ none) ∧
    (m.ValidateBasic env = .success →
      m.StakingTx ≠ none ∧ m.Pop ≠ none ∧ m.UnbondingTx ≠ none) := by
  have hv : v.ValidateBasic env ≠ .nilDereference := by
    rw [validator_eq_firstFailure]
    exact firstFailure_ne_nilDereference _
  have hm : m.ValidateBasic env ≠ .nilDereference := by
    rw [delegation_eq_firstFailure]
    exact firstFailure_ne_nilDereference _
  have total : ∀ r : Result, r ≠ .nilDereference → r = .success ∨ ∃ l e, r = .failure l e := by
    intro r hr
    cases r with
    | success => exact Or.inl rfl
    | failure l e => exact Or.inr ⟨l, e, rfl⟩
    | nilDereference => exact absurd rfl hr
  obtain ⟨v1, v2, v3⟩ := validator_reaches_present env v
  obtain ⟨m1, m2, m3, m4⟩ := delegation_reaches_present env m
  exact ⟨hv, hm, total _ hv, total _ hm, v1, v2, v3, m1, m2, m3, m4⟩

/-- Instance of C15: a valid registration with collaborators that reject
everything fails at the description length bound, line 30, and its
Description is present. -/
theorem no_absent_field_used_witness :
    (goodValidator.ValidateBasic rejectAll).line = some 30 ∧
    goodValidator.Description ≠ none :=
  ⟨by decide,
    (no_absent_field_used rejectAll goodValidator goodDelegation).2.2.2.2.1 30 (by decide)
      (by decide)⟩

/-! ## What the covenant and undelegation validators inspect -/

/-- C16: `MsgAddCovenantSigs.ValidateBasic` and `MsgBTCUndelegate.ValidateBasic`
depend only on which fields are present and on the length of StakingTxHash:
two messages of the same kind that agree on these receive the same result,
whatever their key bytes, signature bytes and hash characters are; in
particular a message receives the same result each time it is validated. -/
theorem covenant_undelegate_presence_and_length_only (c c' : MsgAddCovenantSigs)
    (u u' : MsgBTCUndelegate) :
    (c.Pk.isSome = c'.Pk.isSome → c.SlashingTxSigs.isSome = c'.SlashingTxSigs.isSome →
      strlen c.StakingTxHash = strlen c'.StakingTxHash →
      c.UnbondingTxSig.isSome = c'.UnbondingTxSig.isSome →
      c.SlashingUnbondingTxSigs.isSome = c'.SlashingUnbondingTxSigs.isSome →
      c.ValidateBasic = c'.ValidateBasic) ∧
    (strlen u.StakingTxHash = strlen u'.StakingTxHash →
      u.UnbondingTxSig.isSome = u'.UnbondingTxSig.isSome →
      u.ValidateBasic = u'.ValidateBasic) ∧
    (c = c' → c.ValidateBasic = c'.ValidateBasic) ∧
    (u = u' → u.ValidateBasic = u'.ValidateBasic) := by
  have none_eq : ∀ {α : Type} (x y : Option α), x.isSome = y.isSome → x.isNone = y.isNone := by
    intro α x y h
    cases x <;> cases y <;> simp_all
  refine ⟨?_, ?_, ?_, ?_⟩
  · intro h1 h2 h3 h4 h5
    simp only [MsgAddCovenantSigs.ValidateBasic, none_eq _ _ h1, none_eq _ _ h2, h3,
      none_eq _ _ h4, none_eq _ _ h5]
  · intro h1 h2
    simp only [MsgBTCUndelegate.ValidateBasic, h1, none_eq _ _ h2]
  · intro h
    rw [h]
  · intro h
    rw [h]

/-- Instance of C16: `goodCovenantSigs` and `covenantOtherBytes` differ in
every byte and agree on presence and hash length. -/
theorem covenant_undelegate_presence_and_length_only_witness :
    goodCovenantSigs.Pk ≠ covenantOtherBytes.Pk ∧
    goodCovenantSigs.StakingTxHash ≠ covenantOtherBytes.StakingTxHash ∧
    goodCovenantSigs.ValidateBasic = covenantOtherBytes.ValidateBasic :=
  ⟨by decide, by decide,
    (covenant_undelegate_presence_and_length_only goodCovenantSigs covenantOtherBytes
      goodUndelegate goodUndelegate).1 rfl rfl (by decide) rfl rfl⟩

/-- C17: the staking-tx-hash check constrains the byte length of the text
only. The text of 64 letters z, and the text of 32 two-byte characters (64
bytes in UTF-8), are not hexadecimal encodings of a 32-byte hash, yet
`MsgBTCUndelegate.ValidateBasic` with a present UnbondingTxSig and
`MsgAddCovenantSigs.ValidateBasic` with the four other fields present return
success for both. -/
theorem hash_check_is_byte_length_only :
    (strlen hashZ64 = 64 ∧ isHexHash hashZ64 = false ∧
      MsgBTCUndelegate.ValidateBasic ⟨hashZ64, some [2]⟩ = .success ∧
      MsgAddCovenantSigs.ValidateBasic ⟨some [3], hashZ64, some [[1]], some [2], some [[4]]⟩
        = .success) ∧
    (hashAccented32.length = 32 ∧ strlen hashAccented32 = 64 ∧
      isHexHash hashAccented32 = false ∧
      MsgBTCUndelegate.ValidateBasic ⟨hashAccented32, some [2]⟩ = .success ∧
      MsgAddCovenantSigs.ValidateBasic
        ⟨some [3], hashAccented32, some [[1]], some [2], some [[4]]⟩ = .success) := by
  decide

/-! ## Order of local and delegated checks -/

/-- C13 (as stated, refuted): a delegation request with StakingTime = 70000,
which violates the local staking-time bound, is rejected at line 71 with the
error of the address parser when Signer does not parse; and a request without
UnbondingTx, which violates a local presence check, is rejected at line 89
with the error of the StakingTx self-check when that check fails. -/
theorem delegation_local_checks_first_counterexample :
    (delegationLongStaking.violates .stakingTime = true ∧
      rejectAll.AccAddressFromBech32 delegationLongStaking.Signer
        = .error (.errorf "decoding bech32 failed") ∧
      delegationLongStaking.ValidateBasic rejectAll
        = .failure 71 (.errorf "decoding bech32 failed") ∧
      71 ∈ delegationCollaboratorLines) ∧
    (delegationNoUnbondingTx.violates (.field .UnbondingTx) = true ∧
      rejectStakingTx.StakingTxValidateBasic ⟨[4], [5]⟩
        = some (.errorf "transaction key cannot be nil") ∧
      delegationNoUnbondingTx.ValidateBasic rejectStakingTx
        = .failure 89 (.errorf "transaction key cannot be nil") ∧
      89 ∈ delegationCollaboratorLines) :=
  ⟨⟨by decide, rfl, by decide, by decide⟩, ⟨by decide, rfl, by decide, by decide⟩⟩

/-- C13 (amended): a delegation request that violates a local check `c` (a
required field absent, StakingTime or UnbondingTime above 65535, an empty or
duplicated validator list) is rejected at or before the line of `c`. The
returned error is the error of a violated local check when `c` is one of the
six step-1 presence checks, and when every collaborator check that precedes
`c` in the source accepts. A collaborator check that is reached and fails
comes before `c` in the source and its error is what is returned, although
`c` is violated: address parsing (line 70) comes before the staking-time,
validator-list and unbonding checks; the StakingTx and Pop self-checks (lines
88, 91) before the unbonding presence checks and the unbonding-time bound;
decoding and simple-transfer classification (lines 105, 109) before the
unbonding-time bound. -/
theorem delegation_local_checks_order (env : Collaborators) (m : MsgCreateBTCDelegation)
    (c : DelegationLocalCheck) (hviol : m.violates c = true) :
    m.ValidateBasic env = firstFailure (delegationChecks env m) ∧
    (∃ l e, m.ValidateBasic env = .failure l e ∧ l ≤ c.line) ∧
    ((∃ c', m.violates c' = true ∧ c'.line ≤ c.line ∧
        m.ValidateBasic env = .failure c'.line (c'.error m)) ∨
      (∃ l e, l ∈ delegationCollaboratorLines ∧ l < c.line ∧
        m.ValidateBasic env = .failure l e)) ∧
    (c.line ≤ 68 →
      ∃ c', m.violates c' = true ∧ c'.line ≤ c.line ∧
        m.ValidateBasic env = .failure c'.line (c'.error m)) ∧
    ((71 < c.line → ∃ a, env.AccAddressFromBech32 m.Signer = .ok a) ∧
      (89 < c.line → ∀ s, m.StakingTx = some s → env.StakingTxValidateBasic s = none) ∧
      (92 < c.line → ∀ pop, m.Pop = some pop → env.PopValidateBasic pop = none) ∧
      (107 < c.line → ∃ tx, env.NewBTCTxFromBytes m.UnbondingTx.elems = .ok tx ∧
        env.IsSimpleTransfer tx = none) →
      ∃ c', m.violates c' = true ∧ c'.line ≤ c.line ∧
        m.ValidateBasic env = .failure c'.line (c'.error m)) ∧
    (m.BabylonPk ≠ none → m.Pop ≠ none → m.BtcPk ≠ none → m.StakingTx ≠ none →
      m.SlashingTx ≠ none → m.DelegatorSlashingSig ≠ none →
      (∀ e, env.AccAddressFromBech32 m.Signer = .error e →
        m.ValidateBasic env = .failure 71 e ∧ 71 < c.line) ∧
      ((∃ a, env.AccAddressFromBech32 m.Signer = .ok a) → m.StakingTime.val ≤ 65535 →
        m.ValBtcPkList.len ≠ 0 → ExistsDup m.ValBtcPkList = false →
        (∀ s e, m.StakingTx = some s → env.StakingTxValidateBasic s = some e →
          m.ValidateBasic env = .failure 89 e ∧ 89 < c.line) ∧
        (∀ s, m.StakingTx = some s → env.StakingTxValidateBasic s = none →
          (∀ pop e, m.Pop = some pop → env.PopValidateBasic pop = some e →
            m.ValidateBasic env = .failure 92 e ∧ 92 < c.line) ∧
          (∀ pop, m.Pop = some pop → env.PopValidateBasic pop = none →
            m.UnbondingTx ≠ none → m.UnbondingSlashingTx ≠ none →
            m.DelegatorUnbondingSlashingSig ≠ none →
            (∀ e, env.NewBTCTxFromBytes m.UnbondingTx.elems = .error e →
              m.ValidateBasic env = .failure 107 e ∧ 107 < c.line) ∧
            (∀ tx e, env.NewBTCTxFromBytes m.UnbondingTx.elems = .ok tx →
              env.IsSimpleTransfer tx = some e →
              m.ValidateBasic env = .failure 110 e ∧ 110 < c.line))))) := by
  obtain ⟨hor, hacc⟩ := delegation_local_or_earlier_collaborator env m c hviol
  refine ⟨delegation_eq_firstFailure env m, ?_, hor, ?_, hacc, ?_⟩
  · rcases hor with ⟨c', _, hle, hres⟩ | ⟨l, e, _, hlt, hres⟩
    · exact ⟨_, _, hres, hle⟩
    · exact ⟨l, e, hres, Nat.le_of_lt hlt⟩
  · intro h68
    rcases hor with hloc | ⟨l, e, hmem, hlt, _⟩
    · exact hloc
    · exfalso
      simp only [delegationCollaboratorLines, List.mem_cons, List.mem_singleton,
        List.not_mem_nil, or_false] at hmem
      omega
  · intro hBabylonPk hPop hBtcPk hStakingTx hSlashingTx hSig
    have h71 := violated_check_after_step1 m c hviol hBabylonPk hPop hBtcPk hStakingTx
      hSlashingTx hSig
    obtain ⟨b, hb⟩ := Option.ne_none_iff_exists'.mp hBabylonPk
    obtain ⟨p, hp⟩ := Option.ne_none_iff_exists'.mp hPop
    obtain ⟨k, hk⟩ := Option.ne_none_iff_exists'.mp hBtcPk
    obtain ⟨s, hs⟩ := Option.ne_none_iff_exists'.mp hStakingTx
    obtain ⟨l, hl⟩ := Option.ne_none_iff_exists'.mp hSlashingTx
    obtain ⟨d, hd⟩ := Option.ne_none_iff_exists'.mp hSig
    refine ⟨?_, ?_⟩
    · intro e he
      exact ⟨by simp [MsgCreateBTCDelegation.ValidateBasic, hb, hp, hk, hs, hl, hd, he], h71⟩
    intro ⟨a, ha⟩ hTime hNonEmpty hNoDup
    have h92 := violated_check_after_list m c hviol hBabylonPk hPop hBtcPk hStakingTx
      hSlashingTx hSig hTime hNonEmpty hNoDup
    have ht : ¬ (65535 < m.StakingTime.val) := by omega
    refine ⟨?_, ?_⟩
    · intro s' e hs' hsv
      rw [hs] at hs'
      cases hs'
      exact ⟨by simp [MsgCreateBTCDelegation.ValidateBasic, hb, hp, hk, hs, hl, hd, ha,
        MaxUint16, ht, hNonEmpty, hNoDup, hsv], by omega⟩
    intro s' hs' hsv
    rw [hs] at hs'
    cases hs'
    refine ⟨?_, ?_⟩
    · intro p' e hp' hpv
      rw [hp] at hp'
      cases hp'
      exact ⟨by simp [MsgCreateBTCDelegation.ValidateBasic, hb, hp, hk, hs, hl, hd, ha,
        MaxUint16, ht, hNonEmpty, hNoDup, hsv, hpv], h92⟩
    intro p' hp' hpv hUnbondingTx hUnbondingSlashingTx hUnbondingSig
    rw [hp] at hp'
    cases hp'
    have h110 := violated_check_after_unbonding_fields m c hviol hBabylonPk hPop hBtcPk
      hStakingTx hSlashingTx hSig hTime hNonEmpty hNoDup hUnbondingTx hUnbondingSlashingTx
      hUnbondingSig
    obtain ⟨u, hu⟩ := Option.ne_none_iff_exists'.mp hUnbondingTx
    obtain ⟨v, hv⟩ := Option.ne_none_iff_exists'.mp hUnbondingSlashingTx
    obtain ⟨w, hw⟩ := Option.ne_none_iff_exists'.mp hUnbondingSig
    rw [hu]
    refine ⟨?_, ?_⟩
    · intro e hdec
      exact ⟨by simp [MsgCreateBTCDelegation.ValidateBasic, hb, hp, hk, hs, hl, hd, ha,
        MaxUint16, ht, hNonEmpty, hNoDup, hsv, hpv, hu, hv, hw, hdec], by omega⟩
    · intro tx e hdec hst
      exact ⟨by simp [MsgCreateBTCDelegation.ValidateBasic, hb, hp, hk, hs, hl, hd, ha,
        MaxUint16, ht, hNonEmpty, hNoDup, hsv, hpv, hu, hv, hw, hdec, hst], h110⟩

/-- Instance of C13 (amended): a request with StakingTime = 70000 and all
step-1 fields present, with collaborators that reject everything: the local
staking-time bound is violated and the error of the address parser, which
comes first, is returned. -/
theorem delegation_local_checks_order_witness :
    delegationLongStaking.violates .stakingTime = true ∧
    delegationLongStaking.ValidateBasic rejectAll
      = .failure 71 (.errorf "decoding bech32 failed") ∧
    71 < DelegationLocalCheck.stakingTime.line :=
  ⟨by decide,
    ((delegation_local_checks_order rejectAll delegationLongStaking .stakingTime
      (by decide)).2.2.2.2.2 (by decide) (by decide) (by decide) (by decide) (by decide)
      (by decide)).1 (.errorf "decoding bech32 failed") rfl⟩

/-! ## Signature lists that hold no signature -/

/-- C14 (as stated, refuted): a covenant signature set whose SlashingTxSigs
and SlashingUnbondingTxSigs are non-nil lists of zero signatures, with Pk
present and every other field valid, is accepted: neither the error of line
126 nor that of line 137 is returned. -/
theorem covenant_empty_signature_lists_counterexample :
    covenantEmptySigs.Pk ≠ none ∧
    covenantEmptySigs.SlashingTxSigs.len = 0 ∧
    covenantEmptySigs.SlashingUnbondingTxSigs.len = 0 ∧
    covenantEmptySigs.ValidateBasic = .success := by
  decide

/-- C14 (amended): required signature sets must be non-nil. With Pk present,
`MsgAddCovenantSigs.ValidateBasic` fails with the error "empty covenant
signatures on slashing tx" at line 126 exactly when SlashingTxSigs is nil; on
a message that passes the first four checks it fails with the error "empty
covenant signature" at line 137 exactly when SlashingUnbondingTxSigs is nil,
and succeeds otherwise. A non-nil list passes these two checks also when it
holds zero signatures. -/
theorem covenant_signature_lists_nil_test (m : MsgAddCovenantSigs) (hPk : m.Pk ≠ none) :
    (m.SlashingTxSigs = none →
      m.ValidateBasic = .failure 126 (.errorf "empty covenant signatures on slashing tx")) ∧
    (m.ValidateBasic.line = some 126 ↔ m.SlashingTxSigs = none) ∧
    (m.SlashingTxSigs ≠ none → strlen m.StakingTxHash = 64 → m.UnbondingTxSig ≠ none →
      (m.SlashingUnbondingTxSigs = none →
        m.ValidateBasic = .failure 137 (.errorf "empty covenant signature")) ∧
      (m.ValidateBasic.line = some 137 ↔ m.SlashingUnbondingTxSigs = none) ∧
      (m.SlashingUnbondingTxSigs ≠ none → m.ValidateBasic = .success)) ∧
    (m.SlashingTxSigs.len = 0 → m.SlashingTxSigs ≠ none →
      m.ValidateBasic.line ≠ some 126) ∧
    (m.SlashingUnbondingTxSigs.len = 0 → m.SlashingUnbondingTxSigs ≠ none →
      m.ValidateBasic.line ≠ some 137) := by
  obtain ⟨k, hk⟩ := Option.ne_none_iff_exists'.mp hPk
  rcases hs : m.SlashingTxSigs with _ | sg
  · simp [MsgAddCovenantSigs.ValidateBasic, Result.line, hk, hs]
  by_cases hlen : strlen m.StakingTxHash = 64
  swap
  · simp [MsgAddCovenantSigs.ValidateBasic, Result.line, MaxHashStringSize, hk, hs, hlen]
  rcases hu : m.UnbondingTxSig with _ | u
  · simp [MsgAddCovenantSigs.ValidateBasic, Result.line, MaxHashStringSize, hk, hs, hlen, hu]
  rcases hv : m.SlashingUnbondingTxSigs with _ | v
  · simp [MsgAddCovenantSigs.ValidateBasic, Result.line, MaxHashStringSize, hk, hs, hlen, hu,
      hv]
  · simp [MsgAddCovenantSigs.ValidateBasic, Result.line, MaxHashStringSize, hk, hs, hlen, hu,
      hv]

/-- Instance of C14 (amended): Pk present and SlashingTxSigs nil. -/
theorem covenant_signature_lists_nil_test_witness :
    covenantNilSlashingSigs.Pk ≠ none ∧ covenantNilSlashingSigs.SlashingTxSigs = none ∧
    covenantNilSlashingSigs.ValidateBasic
      = .failure 126 (.errorf "empty covenant signatures on slashing tx") :=
  ⟨by decide, rfl,
    (covenant_signature_lists_nil_test covenantNilSlashingSigs (by decide)).1 rfl⟩

end Babylon
